import Mathlib

/-!
Verification development for the `spotify-cli` repository.

The embedding models the Python sources shallowly:
* `Val` is the type of Python/JSON values flowing through the program
  (dicts are ordered association lists, as in CPython).
* Fallible Python operations (subscript `[]`, `.get`, iteration) become
  `Except String` computations whose error carries the exception text.
* `utils.py`'s parse functions, `formatters.py`'s formatters, `client.py`'s
  API wrappers and `main.py`'s dispatcher are translated function by
  function.  The remote Spotify collaborator (`sp`) is a `Stub` mapping
  API method names to canned payloads; every remote call is recorded in a
  trace so call-count properties can be stated.

`parse_track` and `parse_album` are mutually recursive in the source, but
each recursive call passes `detailed=False`, under which neither function
recurses at all.  To keep every definition kernel-computable we first
define `parse_track0`, the `detailed=False` instance of `parse_track`
(with the two dead `if detailed:` blocks dropped), let `parse_album`'s
nested track normalization call it, and prove `parse_track · false =
parse_track0 ·` definitionally below (`parse_track_false`).
-/

/-- Python/JSON values: `None`, booleans, integers, strings, lists and
(ordered) dicts with string keys. -/
inductive Val where
  | null : Val
  | bool (b : Bool) : Val
  | int (n : Int) : Val
  | str (s : String) : Val
  | list (xs : List Val) : Val
  | dict (fs : List (String × Val)) : Val
deriving Repr

/-- First binding of a key in an ordered dict. -/
def dlookup (fs : List (String × Val)) (k : String) : Option Val :=
  match fs with
  | [] => none
  | (k', v) :: rest => if k' = k then some v else dlookup rest k

/-- Python truthiness: `None`, `False`, `0`, `""`, `[]`, `{}` are falsy. -/
def truthy : Val → Bool
  | .null => false
  | .bool b => b
  | .int n => n != 0
  | .str s => s ≠ ""
  | .list xs => !xs.isEmpty
  | .dict fs => !fs.isEmpty

/-- Python `==` as used in this code base.  The only structured `==` in the
sources compares `playlist_item["owner"]["display_name"]` with the caller's
user name — atoms in every payload — so atom comparison (including Python's
`True == 1`) is modelled exactly and structured operands compare unequal. -/
def pyEq (a b : Val) : Bool :=
  match a, b with
  | .null, .null => true
  | .bool x, .bool y => x == y
  | .int x, .int y => x == y
  | .str x, .str y => x == y
  | .bool x, .int y => (cond x 1 0 : Int) == y
  | .int x, .bool y => x == (cond y 1 0 : Int)
  | _, _ => false

/-- Python `item[k]`: `KeyError` when the key is missing, `TypeError` when
the value is not a dict. -/
def getItem (v : Val) (k : String) : Except String Val :=
  match v with
  | .dict fs =>
    match dlookup fs k with
    | some x => .ok x
    | none => .error ("KeyError: " ++ k)
  | _ => .error ("TypeError: value is not subscriptable by " ++ k)

/-- Python `item.get(k)` (default `None`); `AttributeError` on non-dicts. -/
def dGet (v : Val) (k : String) : Except String Val :=
  match v with
  | .dict fs => .ok ((dlookup fs k).getD .null)
  | _ => .error "AttributeError: get"

/-- Python `item.get(k, d)`. -/
def dGetD (v : Val) (k : String) (d : Val) : Except String Val :=
  match v with
  | .dict fs => .ok ((dlookup fs k).getD d)
  | _ => .error "AttributeError: get"

/-- Python `k in item` for dicts (only ever applied to dicts here). -/
def hasKey (v : Val) (k : String) : Bool :=
  match v with
  | .dict fs => (dlookup fs k).isSome
  | _ => false

/-- Python iteration `for x in v`: succeeds only on lists. -/
def asList (v : Val) : Except String (List Val) :=
  match v with
  | .list xs => .ok xs
  | _ => .error "TypeError: value is not iterable"

/-- Python `result[k] = v` on an ordered dict: overwrite in place when the
key exists, else append at the end (CPython insertion order). -/
def dictSet (fs : List (String × Val)) (k : String) (v : Val) : List (String × Val) :=
  if (dlookup fs k).isSome then
    fs.map (fun p => if p.1 = k then (k, v) else p)
  else
    fs ++ [(k, v)]

/-- Helper for `pySplit`: accumulate the current field (in reverse). -/
def pySplitAux (sep : Char) : List Char → List Char → List String
  | [], acc => [String.mk acc.reverse]
  | c :: rest, acc =>
    if c = sep then String.mk acc.reverse :: pySplitAux sep rest []
    else pySplitAux sep rest (c :: acc)

/-- Python `s.split(sep)` for a one-character separator (the only separators
this code base uses are `","` and `":"`).  `"".split(sep) == [""]`. -/
def pySplit (s : String) (sep : Char) : List String :=
  pySplitAux sep s.toList []

/-- Python whitespace for `str.strip()`. -/
def pySpace (c : Char) : Bool :=
  c = ' ' || c = '\t' || c = '\n' || c = '\r' || c = '\x0b' || c = '\x0c'

/-- Python `s.strip()`: drop leading and trailing whitespace. -/
def pyStrip (s : String) : String :=
  String.mk (((s.toList.dropWhile pySpace).reverse.dropWhile pySpace).reverse)

/-- Digits of a decimal literal, most significant first. -/
def digitsToNat : List Char → Option Nat
  | [] => none
  | cs => cs.foldlM (fun acc c =>
      if c.isDigit then some (acc * 10 + (c.toNat - '0'.toNat)) else none) 0

/-- Python `int(s)` for base 10: surrounding whitespace is ignored, an
optional sign precedes the digits, anything else raises `ValueError`
(digit-group underscores are not modelled; no caller passes them). -/
def pyInt (s : String) : Except String Int :=
  let core := (pyStrip s).toList
  let parsed : Option Int :=
    match core with
    | '+' :: rest => (digitsToNat rest).map (fun n => (n : Int))
    | '-' :: rest => (digitsToNat rest).map (fun n => -(n : Int))
    | rest => (digitsToNat rest).map (fun n => (n : Int))
  match parsed with
  | some n => .ok n
  | none => .error ("invalid literal for int() with base 10: '" ++ s ++ "'")

/-- `utils.parse_artist`: `None` for falsy input, else a record with
`name`/`id` (required) plus genre/follower/popularity data when detailed. -/
def parse_artist (artist_item : Val) (detailed : Bool := false) : Except String Val := do
  if !truthy artist_item then
    return .null
  let name ← getItem artist_item "name"
  let id ← getItem artist_item "id"
  let result := [("name", name), ("id", id)]
  if detailed then
    let genres ← dGet artist_item "genres"
    let followersObj ← dGetD artist_item "followers" (.dict [])
    let followers ← dGet followersObj "total"
    let popularity ← dGet artist_item "popularity"
    let result := dictSet result "genres" genres
    let result := dictSet result "followers" followers
    let result := dictSet result "popularity" popularity
    return .dict result
  return .dict result

/-- The artist union rule, `artists[0] if len(artists) == 1 else artists`:
a single contributor stands alone, otherwise the ordered list stands. -/
def singleOrList (artists : List Val) : Val :=
  match artists with
  | [a] => a
  | _ => .list artists

/-- The `detailed=False` instance of `utils.parse_track` (the two
`if detailed:` blocks of the source are dead under `detailed=False` and are
dropped here; `parse_track_false` below proves the full definition agrees).
Used for the nested track normalization inside `parse_album`. -/
def parse_track0 (track_item : Val) : Except String Val := do
  if !truthy track_item then
    return .null
  let name ← getItem track_item "name"
  let id ← getItem track_item "id"
  let result := [("name", name), ("id", id)]
  let result :=
    if hasKey track_item "is_playing" then
      dictSet result "is_playing" (match track_item with
        | .dict fs => (dlookup fs "is_playing").getD .null
        | _ => .null)
    else result
  let playable ← dGetD track_item "is_playable" (.bool true)
  let result :=
    if !truthy playable then dictSet result "is_playable" (.bool false) else result
  let artistsRaw ← getItem track_item "artists"
  let artistItems ← asList artistsRaw
  let artists ← artistItems.mapM (fun a => getItem a "name")
  let result := dictSet result "artist" (singleOrList artists)
  return .dict result

/-- `utils.parse_album`: `None` for falsy input; requires `name`, `id`,
`artists`; detailed mode normalizes the nested track items in summary mode
(`parse_track(t)`, i.e. `parse_track0`) and adds
total_tracks/release_date/genres; `artist` follows the same single-vs-list
union rule as tracks. -/
def parse_album (album_item : Val) (detailed : Bool := false) : Except String Val := do
  if !truthy album_item then
    return .null
  let name ← getItem album_item "name"
  let id ← getItem album_item "id"
  let result := [("name", name), ("id", id)]
  let artistsRaw ← getItem album_item "artists"
  let artistItems ← asList artistsRaw
  let artists ← artistItems.mapM (fun a => getItem a "name")
  let (result, artists) ← (if detailed then do
      let tracksObj ← dGetD album_item "tracks" (.dict [])
      let itemsRaw ← dGetD tracksObj "items" (.list [])
      let items ← asList itemsRaw
      let tracks ← items.mapM (fun t => parse_track0 t)
      let result := dictSet result "tracks" (.list tracks)
      let artists ← artistItems.mapM (fun a => parse_artist a false)
      let tt ← dGet album_item "total_tracks"
      let rd ← dGet album_item "release_date"
      let gs ← dGet album_item "genres"
      let result := dictSet (dictSet (dictSet result "total_tracks" tt)
        "release_date" rd) "genres" gs
      pure (result, artists)
    else pure (result, artists))
  let result := dictSet result "artist" (singleOrList artists)
  return .dict result

/-- `utils.parse_track`: `None` for falsy input; otherwise requires
`name`, `id` and `artists`; detailed mode pulls the album (summary mode)
and track_number/duration_ms; the `artist` field is the single artist when
there is exactly one, else the ordered list (detailed mode lists normalized
artists instead of names). -/
def parse_track (track_item : Val) (detailed : Bool := false) : Except String Val := do
  if !truthy track_item then
    return .null
  let name ← getItem track_item "name"
  let id ← getItem track_item "id"
  let result := [("name", name), ("id", id)]
  let result :=
    if hasKey track_item "is_playing" then
      dictSet result "is_playing" (match track_item with
        | .dict fs => (dlookup fs "is_playing").getD .null
        | _ => .null)
    else result
  let result ← (if detailed then do
      let albumRaw ← dGet track_item "album"
      let album ← parse_album albumRaw false
      let result := dictSet result "album" album
      let tn ← dGet track_item "track_number"
      let dm ← dGet track_item "duration_ms"
      pure (dictSet (dictSet result "track_number" tn) "duration_ms" dm)
    else pure result)
  let playable ← dGetD track_item "is_playable" (.bool true)
  let result :=
    if !truthy playable then dictSet result "is_playable" (.bool false) else result
  let artistsRaw ← getItem track_item "artists"
  let artistItems ← asList artistsRaw
  let artists ← artistItems.mapM (fun a => getItem a "name")
  let artists ← (if detailed then
      artistItems.mapM (fun a => parse_artist a false)
    else pure artists)
  let result := dictSet result "artist" (singleOrList artists)
  return .dict result

/-- `utils.parse_playlist`: `None` for falsy input; requires `name`, `id`,
`owner.display_name` and `tracks.total`; `user_is_owner` only when a
truthy username is given; detailed mode adds the description and maps
`tracks.items[*].track` through `parse_track` without any filtering. -/
def parse_playlist (playlist_item : Val) (username : Val := .null)
    (detailed : Bool := false) : Except String Val := do
  if !truthy playlist_item then
    return .null
  let name ← getItem playlist_item "name"
  let id ← getItem playlist_item "id"
  let owner ← getItem playlist_item "owner"
  let ownerName ← getItem owner "display_name"
  let tracksObj ← getItem playlist_item "tracks"
  let total ← getItem tracksObj "total"
  let result := [("name", name), ("id", id), ("owner", ownerName),
    ("total_tracks", total)]
  let result :=
    if truthy username then
      dictSet result "user_is_owner" (.bool (pyEq ownerName username))
    else result
  if detailed then
    let desc ← dGet playlist_item "description"
    let result := dictSet result "description" desc
    let itemsRaw ← getItem tracksObj "items"
    let items ← asList itemsRaw
    let tracks ← items.mapM (fun t => do
      let tr ← getItem t "track"
      parse_track tr false)
    let result := dictSet result "tracks" (.list tracks)
    return .dict result
  return .dict result

/-- `defaultdict(list)` append: extend the list bound to `k`, creating the
key (at the end, in creation order) on first append. -/
def ddAppend (acc : List (String × List Val)) (k : String) (v : Val) :
    List (String × List Val) :=
  match acc with
  | [] => [(k, [v])]
  | (k', vs) :: rest =>
    if k' = k then (k', vs ++ [v]) :: rest else (k', vs) :: ddAppend rest k v

/-- One `case` arm of `utils.parse_search_results`: iterate over
`results[key]["items"]`, appending the normalized item to the accumulator
under `key` whenever the raw item is truthy. -/
def searchCollect (acc : List (String × List Val)) (key : String)
    (norm : Val → Except String Val) (results : Val) :
    Except String (List (String × List Val)) := do
  let block ← getItem results key
  let itemsRaw ← getItem block "items"
  let items ← asList itemsRaw
  items.foldlM (fun acc item =>
    if truthy item then do
      let v ← norm item
      pure (ddAppend acc key v)
    else pure acc) acc

/-- `utils.parse_search_results`: split the requested type string on commas
and collect each recognized category into a fresh `defaultdict(list)`;
unknown tokens are silently ignored. -/
def parse_search_results (results : Val) (qtype : String)
    (username : Val := .null) : Except String (List (String × List Val)) := do
  (pySplit qtype ',').foldlM (fun acc q =>
    if q = "track" then
      searchCollect acc "tracks" (fun i => parse_track i false) results
    else if q = "artist" then
      searchCollect acc "artists" (fun i => parse_artist i false) results
    else if q = "playlist" then
      searchCollect acc "playlists" (fun i => parse_playlist i username false) results
    else if q = "album" then
      searchCollect acc "albums" (fun i => parse_album i false) results
    else
      pure acc) []

/-! ## formatters.py -/

mutual

/-- Python `repr` for the payload shapes that can occur here (string
escaping inside `repr` is not modelled; no theorem evaluates `repr` of a
string containing quotes or backslashes). -/
def pyRepr : Val → String
  | .null => "None"
  | .bool b => cond b "True" "False"
  | .int n => toString n
  | .str s => "'" ++ s ++ "'"
  | .list xs => "[" ++ pyReprList xs ++ "]"
  | .dict fs => "\x7b" ++ pyReprDict fs ++ "\x7d"

def pyReprList : List Val → String
  | [] => ""
  | [x] => pyRepr x
  | x :: rest => pyRepr x ++ ", " ++ pyReprList rest

def pyReprDict : List (String × Val) → String
  | [] => ""
  | [(k, v)] => "'" ++ k ++ "': " ++ pyRepr v
  | (k, v) :: rest => "'" ++ k ++ "': " ++ pyRepr v ++ ", " ++ pyReprDict rest

end

/-- Python `str` as applied by f-string interpolation. -/
def pyStr : Val → String
  | .str s => s
  | v => pyRepr v

/-- `n` spaces. -/
def pad (n : Nat) : String := String.mk (List.replicate n ' ')

/-- Python format spec `>w`: right-justify in `w` columns. -/
def rjust (s : String) (w : Nat) : String := pad (w - s.length) ++ s

/-- Python format spec `02d` applied to a non-negative remainder. -/
def zfill2 (n : Int) : String :=
  let s := toString n
  if 0 ≤ n ∧ n < 10 then "0" ++ s else s

/-- Commas inserted every three digits, walking the reversed digit list. -/
def commaAux : List Char → Nat → List Char
  | [], _ => []
  | c :: rest, n =>
    if n = 0 then ',' :: c :: commaAux rest 2 else c :: commaAux rest (n - 1)

/-- Python format spec `,` (thousands separators) for an integer. -/
def commaGroup (n : Int) : String :=
  (if n < 0 then "-" else "") ++
    String.mk (commaAux (toString n.natAbs).toList.reverse 3).reverse

/-- Python `v is None`. -/
def isNone : Val → Bool
  | .null => true
  | _ => false

/-- A Python value usable where an `int` is required by a `d`-style format
spec (`bool` is an `int` subtype in Python). -/
def asIntLike : Val → Except String Int
  | .int n => .ok n
  | .bool b => .ok (cond b 1 0)
  | _ => .error "TypeError: an integer is required"

/-- A value required to be `str` (e.g. by `str.join`). -/
def asStr : Val → Except String String
  | .str s => .ok s
  | _ => .error "TypeError: expected str instance"

/-- `formatters._artist_str`: `"Unknown"` for a missing/None artist field;
lists are comma-joined (each element a normalized-artist dict's name or a
plain name string); a dict yields its name; anything else is `str()`-ed.
The source returns `a["name"]` unconverted for the dict case; every caller
immediately interpolates the result into an f-string, which applies
`str()`, so the conversion is applied here. -/
def _artist_str (item : Val) : Except String String := do
  let a ← dGet item "artist"
  match a with
  | .null => pure "Unknown"
  | .list ns => do
    let parts ← ns.mapM (fun n =>
      match n with
      | .dict _ => do
        let nm ← getItem n "name"
        asStr nm
      | .str s => pure s
      | _ => Except.error "TypeError: sequence item: expected str instance")
    pure (String.intercalate ", " parts)
  | .dict _ => do
    let nm ← getItem a "name"
    pure (pyStr nm)
  | v => pure (pyStr v)

/-- `formatters._ms_to_duration`: empty string for falsy input, otherwise
`m:ss` via floor division (Python `//` and `%`). -/
def _ms_to_duration (ms : Val) : Except String String := do
  if !truthy ms then
    return ""
  let n ← asIntLike ms
  let s := Int.fdiv n 1000
  pure (toString (Int.fdiv s 60) ++ ":" ++ zfill2 (Int.fmod s 60))

/-- `formatters.format_track`: `name -- artists [m:ss] (ID: id)` with the
duration present only when `duration_ms` is truthy. -/
def format_track (t : Val) : Except String String := do
  let name ← getItem t "name"
  let astr ← _artist_str t
  let parts := [pyStr name ++ " -- " ++ astr]
  let dm ← dGet t "duration_ms"
  let parts ← (if truthy dm then do
      let dmv ← getItem t "duration_ms"
      let dur ← _ms_to_duration dmv
      pure (parts ++ ["[" ++ dur ++ "]"])
    else pure parts)
  let id ← getItem t "id"
  pure (String.intercalate " " (parts ++ ["(ID: " ++ pyStr id ++ ")"]))

/-- `formatters.format_now_playing`. -/
def format_now_playing (t : Val) : Except String String := do
  if !truthy t then
    return "Nothing playing."
  let ip ← dGet t "is_playing"
  let status := if truthy ip then "Playing" else "Paused"
  let name ← getItem t "name"
  let astr ← _artist_str t
  let id ← getItem t "id"
  pure (status ++ ": " ++ pyStr name ++ " -- " ++ astr ++ " (ID: " ++ pyStr id ++ ")")

/-- `formatters.format_track_list`: 1-indexed, right-justified in three
columns when numbered; `"No tracks."` for an empty list. -/
def format_track_list (tracks : List Val) (numbered : Bool := true) :
    Except String String := do
  if tracks.isEmpty then
    return "No tracks."
  let lines ← (List.enumFrom 1 tracks).mapM (fun p => do
    let line ← format_track p.2
    pure (if numbered then rjust (toString p.1) 3 ++ ". " ++ line else line))
  pure (String.intercalate "\n" lines)

/-- `formatters.format_artist`. -/
def format_artist (a : Val) : Except String String := do
  let name ← getItem a "name"
  let parts := [pyStr name]
  let genres ← dGet a "genres"
  let parts ← (if truthy genres then do
      let gv ← getItem a "genres"
      let gl ← asList gv
      let gs ← gl.mapM asStr
      pure (parts ++ ["[" ++ String.intercalate ", " gs ++ "]"])
    else pure parts)
  let followers ← dGet a "followers"
  let parts ← (if !isNone followers then do
      let fv ← getItem a "followers"
      let n ← asIntLike fv
      pure (parts ++ ["(" ++ commaGroup n ++ " followers)"])
    else pure parts)
  let id ← getItem a "id"
  pure (String.intercalate " " (parts ++ ["(ID: " ++ pyStr id ++ ")"]))

/-- `formatters.format_album`. -/
def format_album (a : Val) : Except String String := do
  let name ← getItem a "name"
  let astr ← _artist_str a
  let parts := [pyStr name ++ " -- " ++ astr]
  let rd ← dGet a "release_date"
  let parts ← (if truthy rd then do
      let rdv ← getItem a "release_date"
      pure (parts ++ ["[" ++ pyStr rdv ++ "]"])
    else pure parts)
  let tt ← dGet a "total_tracks"
  let parts ← (if truthy tt then do
      let ttv ← getItem a "total_tracks"
      pure (parts ++ ["(" ++ pyStr ttv ++ " tracks)"])
    else pure parts)
  let id ← getItem a "id"
  pure (String.intercalate " " (parts ++ ["(ID: " ++ pyStr id ++ ")"]))

/-- `formatters.format_playlist`. -/
def format_playlist (p : Val) : Except String String := do
  let name ← getItem p "name"
  let owner ← dGetD p "owner" (.str "?")
  let tt ← getItem p "total_tracks"
  let id ← getItem p "id"
  pure (String.intercalate " " [pyStr name ++ " -- " ++ pyStr owner,
    "(" ++ pyStr tt ++ " tracks)", "(ID: " ++ pyStr id ++ ")"])

/-- `formatters.format_device`. -/
def format_device (d : Val) : Except String String := do
  let ia ← dGet d "is_active"
  let active := if truthy ia then "*" else " "
  let name ← getItem d "name"
  let ty ← getItem d "type"
  let vp ← dGetD d "volume_percent" (.str "?")
  pure ("  " ++ active ++ " " ++ pyStr name ++ " (" ++ pyStr ty ++ ") vol:" ++
    pyStr vp ++ "%")

/-- Python `str.upper()` (ASCII suffices for the category names used). -/
def pyUpper (s : String) : String := String.mk (s.toList.map Char.toUpper)

/-- Python `str.rstrip()`. -/
def pyRstrip (s : String) : String :=
  String.mk (s.toList.reverse.dropWhile pySpace).reverse

/-- `formatters.format_search_results`: section header per category in the
result dict, numbered entries formatted by the category's formatter (an
unrecognized category contributes only its header), blank line after each
section, trailing whitespace stripped. -/
def format_search_results (results : List (String × List Val)) :
    Except String String := do
  let lines ← results.foldlM (fun lines cat => do
    let lines := lines ++ ["--- " ++ pyUpper cat.1 ++ " ---"]
    let lines ← (List.enumFrom 1 cat.2).foldlM (fun lines p => do
      let fmt : Except String (Option String) :=
        if cat.1 = "tracks" then (format_track p.2).map some
        else if cat.1 = "artists" then (format_artist p.2).map some
        else if cat.1 = "albums" then (format_album p.2).map some
        else if cat.1 = "playlists" then (format_playlist p.2).map some
        else .ok none
      let line ← fmt
      pure (match line with
        | some l => lines ++ ["  " ++ toString p.1 ++ ". " ++ l]
        | none => lines)) lines
    pure (lines ++ [""])) []
  pure (pyRstrip (String.intercalate "\n" lines))

/-- `formatters.format_queue`. -/
def format_queue (q : Val) : Except String String := do
  let cp ← dGet q "currently_playing"
  let lines ← (if truthy cp then do
      let l ← format_track cp
      pure ["Now: " ++ l]
    else pure ["Now: Nothing playing"])
  let lines := lines ++ [""]
  let queueV ← dGetD q "queue" (.list [])
  let queue ← asList queueV
  let lines ← (if queue.isEmpty then
      pure (lines ++ ["Queue is empty."])
    else do
      let ls ← (List.enumFrom 1 queue).mapM (fun p => do
        let l ← format_track p.2
        pure ("  " ++ toString p.1 ++ ". " ++ l))
      pure (lines ++ ["Queue:"] ++ ls))
  pure (String.intercalate "\n" lines)

/-- `formatters.format_artist_info`. -/
def format_artist_info (a : Val) : Except String String := do
  let head ← format_artist a
  let lines := [head]
  let tt ← dGet a "top_tracks"
  let lines ← (if truthy tt then do
      let tv ← getItem a "top_tracks"
      let tl ← asList tv
      let ls ← (List.enumFrom 1 tl).mapM (fun p => do
        let l ← format_track p.2
        pure ("  " ++ toString p.1 ++ ". " ++ l))
      pure (lines ++ ["\nTop Tracks:"] ++ ls)
    else pure lines)
  let al ← dGet a "albums"
  let lines ← (if truthy al then do
      let av ← getItem a "albums"
      let all ← asList av
      let ls ← (List.enumFrom 1 all).mapM (fun p => do
        let l ← format_album p.2
        pure ("  " ++ toString p.1 ++ ". " ++ l))
      pure (lines ++ ["\nAlbums:"] ++ ls)
    else pure lines)
  pure (String.intercalate "\n" lines)

/-- `formatters.format_playlist_detail`. -/
def format_playlist_detail (p : Val) : Except String String := do
  let head ← format_playlist p
  let lines := [head]
  let desc ← dGet p "description"
  let lines ← (if truthy desc then do
      let dv ← getItem p "description"
      pure (lines ++ ["  " ++ pyStr dv])
    else pure lines)
  let tr ← dGet p "tracks"
  let lines ← (if truthy tr then do
      let tv ← getItem p "tracks"
      let tl ← asList tv
      let ls ← (List.enumFrom 1 tl).mapM (fun q => do
        let l ← format_track q.2
        pure ("  " ++ toString q.1 ++ ". " ++ l))
      pure (lines ++ [""] ++ ls)
    else pure lines)
  pure (String.intercalate "\n" lines)

/-- Hex digit for JSON control-character escapes. -/
def hexDigit (n : Nat) : Char :=
  if n < 10 then Char.ofNat ('0'.toNat + n) else Char.ofNat ('a'.toNat + n - 10)

/-- JSON escaping of one character (`ensure_ascii=False`: non-ASCII kept). -/
def jsonEscapeChar (c : Char) : String :=
  if c = '"' then "\\\""
  else if c = '\\' then "\\\\"
  else if c = '\n' then "\\n"
  else if c = '\t' then "\\t"
  else if c = '\r' then "\\r"
  else if c.toNat < 32 then
    "\\u00" ++ String.mk [hexDigit (c.toNat / 16), hexDigit (c.toNat % 16)]
  else String.singleton c

/-- JSON string literal. -/
def jsonQuote (s : String) : String :=
  "\"" ++ String.join (s.toList.map jsonEscapeChar) ++ "\""

mutual

/-- `json.dumps(v, indent=2, ensure_ascii=False)` at an indentation level:
empty containers inline, non-empty ones one element per line, keys in
insertion order. -/
def jsonAux : Val → Nat → String
  | .null, _ => "null"
  | .bool b, _ => cond b "true" "false"
  | .int n, _ => toString n
  | .str s, _ => jsonQuote s
  | .list [], _ => "[]"
  | .list (x :: xs), ind =>
    "[\n" ++ jsonList (x :: xs) (ind + 2) ++ "\n" ++ pad ind ++ "]"
  | .dict [], _ => "\x7b\x7d"
  | .dict (f :: fs), ind =>
    "\x7b\n" ++ jsonDict (f :: fs) (ind + 2) ++ "\n" ++ pad ind ++ "\x7d"

def jsonList : List Val → Nat → String
  | [], _ => ""
  | [x], ind => pad ind ++ jsonAux x ind
  | x :: y :: rest, ind =>
    pad ind ++ jsonAux x ind ++ ",\n" ++ jsonList (y :: rest) ind

def jsonDict : List (String × Val) → Nat → String
  | [], _ => ""
  | [(k, v)], ind => pad ind ++ jsonQuote k ++ ": " ++ jsonAux v ind
  | (k, v) :: f :: rest, ind =>
    pad ind ++ jsonQuote k ++ ": " ++ jsonAux v ind ++ ",\n" ++
      jsonDict (f :: rest) ind

end

/-- `formatters.as_json`. -/
def as_json (data : Val) : String := jsonAux data 0

/-! ## client.py

The spotipy client `sp` is an external collaborator; it is modelled as a
`Stub` assigning a canned payload to each API method name.  Every remote
invocation is appended to the `calls` trace of the interpreter state, and
stdout/stderr lines are collected in `out`/`err`. -/

/-- Canned remote API: payload returned for each spotipy method name. -/
structure Stub where
  responses : String → Val

/-- Observable state of one CLI invocation: remote calls made (in order),
stdout lines and stderr lines. -/
structure DState where
  calls : List String
  out : List String
  err : List String
deriving Repr, DecidableEq

/-- Empty starting state. -/
def DState.init : DState := ⟨[], [], []⟩

/-- Python control-flow escapes: an exception carrying its message, or
`sys.exit(code)` (a `SystemExit`, which `except Exception` does not catch). -/
inductive PyErr where
  | exc (msg : String)
  | exit (code : Nat)
deriving Repr, DecidableEq

/-- Interpreter monad: state threading that survives an escape, so output
written before an exception remains observable. -/
def M (α : Type) := DState → Except PyErr α × DState

instance : Monad M where
  pure a := fun s => (.ok a, s)
  bind x f := fun s =>
    match x s with
    | (.ok a, s') => f a s'
    | (.error e, s') => (.error e, s')

/-- Invoke a remote API method: record the call, return the canned payload. -/
def call (sp : Stub) (name : String) : M Val :=
  fun s => (.ok (sp.responses name), { s with calls := s.calls ++ [name] })

/-- Python `print(line)`. -/
def put (line : String) : M Unit :=
  fun s => (.ok (), { s with out := s.out ++ [line] })

/-- Python `print(line, file=sys.stderr)`. -/
def eput (line : String) : M Unit :=
  fun s => (.ok (), { s with err := s.err ++ [line] })

/-- Python `raise` with a message. -/
def throwExc {α : Type} (msg : String) : M α :=
  fun s => (.error (.exc msg), s)

/-- Python `sys.exit(code)`. -/
def sysExit {α : Type} (code : Nat) : M α :=
  fun s => (.error (.exit code), s)

/-- Run a pure fallible computation, re-raising its error. -/
def liftE {α : Type} : Except String α → M α
  | .ok a => fun s => (.ok a, s)
  | .error e => fun s => (.error (.exc e), s)

/-- `client._get_username`. -/
def client_get_username (sp : Stub) : M Val := do
  let u ← call sp "current_user"
  liftE (getItem u "display_name")

/-- The device-scanning loop of `client._get_device_id`: first device with
a truthy `is_active` yields its id. -/
def findActiveDevice : List Val → Except String (Option Val)
  | [] => .ok none
  | d :: rest => do
    let ia ← dGet d "is_active"
    if truthy ia then do
      let id ← getItem d "id"
      pure (some id)
    else findActiveDevice rest

/-- `client._get_device_id`: active device, else first available, else None. -/
def client_get_device_id (sp : Stub) : M Val := do
  let resp ← call sp "devices"
  let dv ← liftE (dGetD resp "devices" (.list []))
  let devices ← liftE (asList dv)
  match devices with
  | [] => pure .null
  | d0 :: _ => do
    let found ← liftE (findActiveDevice devices)
    match found with
    | some id => pure id
    | none => liftE (getItem d0 "id")

/-- `client.now_playing`. -/
def now_playing (sp : Stub) : M Val := do
  let current ← call sp "current_user_playing_track"
  if !truthy current then
    return .null
  let cpt ← liftE (dGet current "currently_playing_type")
  if !pyEq cpt (.str "track") then
    return .null
  let item ← liftE (getItem current "item")
  let track ← liftE (parse_track item false)
  let ip ← liftE (dGetD current "is_playing" (.bool false))
  match track with
  | .dict fs => pure (.dict (dictSet fs "is_playing" ip))
  | _ => throwExc "TypeError: NoneType object does not support item assignment"

/-- `client.play`: device lookup, then one `start_playback` call (track
URIs play the single track, anything else plays the context). -/
def play (sp : Stub) (uri : Option String) : M Unit := do
  let _ ← client_get_device_id sp
  match uri with
  | none => do
    let _ ← call sp "start_playback"
    pure ()
  | some u =>
    if "spotify:track:".toList.isPrefixOf u.toList then do
      let _ ← call sp "start_playback"
      pure ()
    else do
      let _ ← call sp "start_playback"
      pure ()

/-- `client.pause`: device lookup, then `pause_playback`. -/
def pause (sp : Stub) : M Unit := do
  let _ ← client_get_device_id sp
  let _ ← call sp "pause_playback"
  pure ()

/-- The `for _ in range(n)` loop of `client.skip`. -/
def skipLoop (sp : Stub) : Nat → M Unit
  | 0 => pure ()
  | k + 1 => do
    let _ ← call sp "next_track"
    skipLoop sp k

/-- `client.skip`: `n` consecutive `next_track` calls (`range` of a
non-positive count is empty). -/
def skip (sp : Stub) (n : Int) : M Unit := skipLoop sp n.toNat

/-- `client.prev`. -/
def prev (sp : Stub) : M Unit := do
  let _ ← call sp "previous_track"
  pure ()

/-- `client.volume`. -/
def volume (sp : Stub) (_level : Int) : M Unit := do
  let _ ← call sp "volume"
  pure ()

/-- `client.devices`. -/
def devices (sp : Stub) : M Val := do
  let resp ← call sp "devices"
  liftE (dGetD resp "devices" (.list []))

/-- `client.get_queue`: currently playing (summary, None when absent) plus
the upcoming queue mapped through `parse_track` with no filtering. -/
def get_queue (sp : Stub) : M Val := do
  let q ← call sp "queue"
  let cpRaw ← liftE (dGet q "currently_playing")
  let cp ← (if truthy cpRaw then liftE (parse_track cpRaw false) else pure .null)
  let queueRaw ← liftE (dGetD q "queue" (.list []))
  let items ← liftE (asList queueRaw)
  let parsed ← liftE (items.mapM (fun t => parse_track t false))
  pure (.dict [("currently_playing", cp), ("queue", .list parsed)])

/-- `client.queue_add`. -/
def queue_add (sp : Stub) (_uri : String) : M Unit := do
  let _ ← call sp "add_to_queue"
  pure ()

/-- `client.search`: username lookup, the remote search, then

normalization. -/
def search (sp : Stub) (_query : String) (qtype : String) (_limit : Int) :
    M (List (String × List Val)) := do
  let username ← client_get_username sp
  let results ← call sp "search"
  liftE (parse_search_results results qtype username)

/-- `client.info`: split the URI on `:`; exactly three parts select a
kind-specific lookup (artist adds top-tracks and albums calls); any other
token count or unknown kind raises `ValueError` before any remote call. -/
def info (sp : Stub) (uri : String) : M Val :=
  let parts := pySplit uri ':'
  if parts.length ≠ 3 then
    throwExc ("Invalid URI: " ++ uri ++ ". Expected format: spotify:type:id")
  else
    let qtype := parts.getD 1 ""
    if qtype = "track" then do
      let r ← call sp "track"
      liftE (parse_track r true)
    else if qtype = "album" then do
      let r ← call sp "album"
      liftE (parse_album r true)
    else if qtype = "artist" then do
      let a ← call sp "artist"
      let artist ← liftE (parse_artist a true)
      let topResp ← call sp "artist_top_tracks"
      let topV ← liftE (getItem topResp "tracks")
      let top ← liftE (asList topV)
      let albumsResp ← call sp "artist_albums"
      let tts ← liftE (top.mapM (fun t => parse_track t false))
      let fs ← (match artist with
        | .dict fs => pure fs
        | _ => throwExc "TypeError: NoneType object does not support item assignment")
      let ai ← liftE (getItem albumsResp "items")
      let al ← liftE (asList ai)
      let albs ← liftE (al.mapM (fun x => parse_album x false))
      pure (.dict (dictSet (dictSet fs "top_tracks" (.list tts)) "albums" (.list albs)))
    else if qtype = "playlist" then do
      let username ← client_get_username sp
      let r ← call sp "playlist"
      liftE (parse_playlist r username true)
    else
      throwExc ("Unknown type: " ++ qtype)

/-- `client.playlists`. -/
def playlists (sp : Stub) (_limit : Int) : M (List Val) := do
  let username ← client_get_username sp
  let results ← call sp "current_user_playlists"
  let iv ← liftE (getItem results "items")
  let items ← liftE (asList iv)
  liftE (items.mapM (fun p => parse_playlist p username false))

/-- The filtered comprehension shared by `client.playlist_tracks`,
`client.saved_tracks`, `client.saved_albums` and `client.recent`:
`[norm(item[key]) for item in items if item.get(key)]`. -/
def filteredEntityItems (items : List Val) (key : String)
    (norm : Val → Except String Val) : Except String (List Val) :=
  items.foldlM (fun acc item => do
    let t ← dGet item key
    if truthy t then do
      let e ← getItem item key
      let p ← norm e
      pure (acc ++ [p])
    else pure acc) []

/-- `client.playlist_tracks`: one `playlist_items` call, then the filtered
comprehension dropping entries whose `track` is falsy. -/
def playlist_tracks (sp : Stub) (_playlist_id : String) (_limit : Int := 100) :
    M (List Val) := do
  let results ← call sp "playlist_items"
  let iv ← liftE (getItem results "items")
  let items ← liftE (asList iv)
  liftE (filteredEntityItems items "track" (fun t => parse_track t false))

/-- `client.playlist_add`. -/
def playlist_add (sp : Stub) (_playlist_id : String) (_track_ids : List String) :
    M Unit := do
  let _ ← call sp "playlist_add_items"
  pure ()

/-- `client.playlist_remove`. -/
def playlist_remove (sp : Stub) (_playlist_id : String) (_track_ids : List String) :
    M Unit := do
  let _ ← call sp "playlist_remove_all_occurrences_of_items"
  pure ()

/-- `client.playlist_create`: user id lookup, username lookup (a second
`current_user` call), the create call, then detailed normalization. -/
def playlist_create (sp : Stub) (_name : String) (_public : Bool)
    (_description : String) : M Val := do
  let cu ← call sp "current_user"
  let _userId ← liftE (getItem cu "id")
  let username ← client_get_username sp
  let result ← call sp "user_playlist_create"
  liftE (parse_playlist result username true)

/-- `client.saved_tracks`. -/
def saved_tracks (sp : Stub) (_limit : Int) : M (List Val) := do
  let results ← call sp "current_user_saved_tracks"
  let iv ← liftE (getItem results "items")
  let items ← liftE (asList iv)
  liftE (filteredEntityItems items "track" (fun t => parse_track t false))

/-- `client.saved_albums`. -/
def saved_albums (sp : Stub) (_limit : Int) : M (List Val) := do
  let results ← call sp "current_user_saved_albums"
  let iv ← liftE (getItem results "items")
  let items ← liftE (asList iv)
  liftE (filteredEntityItems items "album" (fun a => parse_album a false))

/-- `client.save_tracks`. -/
def save_tracks (sp : Stub) (_ids : List String) : M Unit := do
  let _ ← call sp "current_user_saved_tracks_add"
  pure ()

/-- `client.save_albums`. -/
def save_albums (sp : Stub) (_ids : List String) : M Unit := do
  let _ ← call sp "current_user_saved_albums_add"
  pure ()

/-- `client.unsave_tracks`. -/
def unsave_tracks (sp : Stub) (_ids : List String) : M Unit := do
  let _ ← call sp "current_user_saved_tracks_delete"
  pure ()

/-- `client.unsave_albums`. -/
def unsave_albums (sp : Stub) (_ids : List String) : M Unit := do
  let _ ← call sp "current_user_saved_albums_delete"
  pure ()

/-- `client.recent`. -/
def recent (sp : Stub) (_limit : Int) : M (List Val) := do
  let results ← call sp "current_user_recently_played"
  let iv ← liftE (getItem results "items")
  let items ← liftE (asList iv)
  liftE (filteredEntityItems items "track" (fun t => parse_track t false))

/-- `client.top_tracks` (no filtering of the returned items). -/
def top_tracks (sp : Stub) (_time_range : String) (_limit : Int) :
    M (List Val) := do
  let results ← call sp "current_user_top_tracks"
  let iv ← liftE (getItem results "items")
  let items ← liftE (asList iv)
  liftE (items.mapM (fun t => parse_track t false))

/-- `client.top_artists`. -/
def top_artists (sp : Stub) (_time_range : String) (_limit : Int) :
    M (List Val) := do
  let results ← call sp "current_user_top_artists"
  let iv ← liftE (getItem results "items")
  let items ← liftE (asList iv)
  liftE (items.mapM (fun a => parse_artist a false))

/-! ## main.py -/

/-- `main.HELP_TEXT`. -/
def HELP_TEXT : String :=
  "sp — Spotify CLI\n\nPLAYBACK\n  sp now                         Currently playing track\n  sp play [uri]                  Resume or play URI\n  sp pause                       Pause playback\n  sp skip [n]                    Skip track(s)\n  sp prev                        Previous track\n  sp volume <0-100>              Set volume\n  sp devices                     List devices\n\nQUEUE\n  sp queue                       Show queue\n  sp queue add <uri>             Add to queue\n\nSEARCH\n  sp search <query> [--type TYPE] [--limit N]\n    TYPE: track (default), album, artist, playlist\n    Multiple types: --type track,album\n\nINFO\n  sp info <uri>                  Detail on any Spotify item\n    URI format: spotify:track:ID, spotify:album:ID, etc.\n\nPLAYLISTS\n  sp playlists [--limit N]       List user's playlists\n  sp playlist <id>               Show playlist tracks\n  sp playlist <id> add <ids>     Add tracks (comma-separated IDs)\n  sp playlist <id> remove <ids>  Remove tracks (comma-separated IDs)\n  sp playlist create \"<name>\" [--private] [--desc \"...\"]\n\nLIBRARY\n  sp saved tracks [--limit N]    Liked tracks\n  sp saved albums [--limit N]    Saved albums\n  sp save track <ids>            Like tracks (comma-separated IDs)\n  sp save album <ids>            Save albums (comma-separated IDs)\n  sp unsave track <ids>          Unlike tracks\n  sp unsave album <ids>          Unsave albums\n\nLISTENING HISTORY\n  sp recent [--limit N]          Recently played\n  sp top tracks [--range short|medium|long] [--limit N]\n  sp top artists [--range short|medium|long] [--limit N]\n\nFLAGS\n  --json                         JSON output (all commands)\n\nEXAMPLES\n  sp now\n  sp search \"bicep\" --type artist\n  sp saved albums --limit 10\n  sp top tracks --range short\n  sp playlist 37i9dQZF1DXcBWIGoYBM5M\n  sp info spotify:album:4LH4d3cOWNNsVw41Gqt2kv\n"

/-- `main.AGENT_TEXT`. -/
def AGENT_TEXT : String :=
  "sp — Spotify CLI — Agent Reference\n\nThis document describes every command available in the `sp` CLI.\nAll commands accept an optional `--json` flag for structured JSON output.\nWithout `--json`, output is human-readable plain text.\n\nURI FORMAT\n  Spotify URIs follow the pattern: spotify:<type>:<id>\n  Types: track, album, artist, playlist\n  Example: spotify:track:4iV5W9uYEdYUVa79Axb7Rh\n  The <id> portion is a 22-character base62 string. Many commands that accept\n  an ID also accept a full URI — use whichever you have on hand.\n\n────────────────────────────────────────────────────────────────────\n\nPLAYBACK\n\n  sp now\n    Returns the currently playing track.\n    Plain: \"Playing: Name -- Artist (ID: xxx)\" or \"Nothing playing.\"\n    JSON: \x7bname, id, artist, is_playing, duration_ms\x7d or null\n\n  sp play [uri]\n    Resume playback (no arg) or play a specific URI.\n    - Track URI (spotify:track:...): plays that single track\n    - Album/playlist/artist URI: plays that context\n    Plain: \"Playing.\" or \"Resumed.\"\n    No JSON output — action command.\n\n  sp pause\n    Pause playback.\n    Plain: \"Paused.\"\n\n  sp skip [n]\n    Skip forward n tracks (default 1).\n    Plain: \"Skipped N track(s).\"\n\n  sp prev\n    Go to previous track.\n    Plain: \"Previous track.\"\n\n  sp volume <0-100>\n    Set volume to the given percentage (integer).\n    Plain: \"Volume: N%\"\n\n  sp devices\n    List available Spotify Connect devices.\n    Plain: one line per device with name, type, volume, and * for active.\n    JSON: [\x7bname, id, type, is_active, volume_percent\x7d, ...]\n\n────────────────────────────────────────────────────────────────────\n\nQUEUE\n\n  sp queue\n    Show the current playback queue.\n    Plain: currently playing track + numbered queue list.\n    JSON: \x7bcurrently_playing: \x7btrack\x7d | null, queue: [\x7btrack\x7d, ...]\x7d\n\n  sp queue add <uri>\n    Add a track URI to the end of the queue.\n    Plain: \"Added to queue.\"\n\n────────────────────────────────────────────────────────────────────\n\nSEARCH\n\n  sp search <query> [--type TYPE] [--limit N]\n    Search Spotify. Query is a free-text string.\n    --type: track (default), album, artist, playlist\n            Combine with commas: --type track,album\n    --limit: max results per type (default 10)\n    Plain: grouped sections (TRACKS, ALBUMS, etc.) with numbered items.\n    JSON: \x7btracks: [\x7btrack\x7d, ...], albums: [\x7balbum\x7d, ...], ...\x7d\n          Only keys for requested types are present.\n\n────────────────────────────────────────────────────────────────────\n\nINFO\n\n  sp info <uri>\n    Get detailed information about any Spotify item.\n    URI must be a full spotify:type:id string.\n\n    Track: JSON \x7bname, id, artist, album, track_number, duration_ms\x7d\n    Album: JSON \x7bname, id, artist, release_date, total_tracks, tracks: [...]\x7d\n    Artist: JSON \x7bname, id, genres, followers, popularity,\n                  top_tracks: [...], albums: [...]\x7d\n    Playlist: JSON \x7bname, id, owner, total_tracks, description, tracks: [...]\x7d\n\n────────────────────────────────────────────────────────────────────\n\nPLAYLISTS\n\n  sp playlists [--limit N]\n    List the user's playlists (default limit 50).\n    JSON: [\x7bname, id, owner, total_tracks, user_is_owner\x7d, ...]\n\n  sp playlist <id>\n    Show tracks in a playlist.\n    JSON: [\x7bname, id, artist, duration_ms\x7d, ...]\n\n  sp playlist <id> add <ids>\n    Add tracks to a playlist. IDs are comma-separated track IDs.\n    Plain: \"Added N track(s).\"\n\n  sp playlist <id> remove <ids>\n    Remove tracks from a playlist. IDs are comma-separated.\n    Plain: \"Removed N track(s).\"\n\n  sp playlist create \"<name>\" [--private] [--desc \"...\"]\n    Create a new playlist. Name should be quoted if it has spaces.\n    --private: make it private (default is public)\n    --desc: set a description\n    JSON: \x7bname, id, owner, total_tracks, description\x7d\n\n────────────────────────────────────────────────────────────────────\n\nLIBRARY\n\n  sp saved tracks [--limit N]\n    User's liked/saved tracks (default limit 20).\n    JSON: [\x7bname, id, artist, duration_ms\x7d, ...]\n\n  sp saved albums [--limit N]\n    User's saved albums (default limit 20).\n    JSON: [\x7bname, id, artist, release_date, total_tracks\x7d, ...]\n\n  sp save track <ids>\n    Like/save tracks. Comma-separated IDs.\n    Plain: \"Saved N track(s).\"\n\n  sp save album <ids>\n    Save albums. Comma-separated IDs.\n    Plain: \"Saved N album(s).\"\n\n  sp unsave track <ids>\n    Remove tracks from library.\n    Plain: \"Removed N track(s).\"\n\n  sp unsave album <ids>\n    Remove albums from library.\n    Plain: \"Removed N album(s).\"\n\n────────────────────────────────────────────────────────────────────\n\nLISTENING HISTORY\n\n  sp recent [--limit N]\n    Recently played tracks (default limit 20).\n    JSON: [\x7bname, id, artist, duration_ms\x7d, ...]\n\n  sp top tracks [--range short|medium|long] [--limit N]\n    User's top tracks. Range maps to Spotify time ranges:\n      short  = ~4 weeks\n      medium = ~6 months (default)\n      long   = several years\n    JSON: [\x7bname, id, artist, duration_ms\x7d, ...]\n\n  sp top artists [--range short|medium|long] [--limit N]\n    User's top artists. Same range options as above.\n    JSON: [\x7bname, id, genres, followers\x7d, ...]\n\n────────────────────────────────────────────────────────────────────\n\nAGENT TIPS\n\n  - Use --json on read commands to get structured data you can parse.\n  - Action commands (play, pause, skip, prev, volume, queue add, save,\n    unsave, playlist add/remove) print confirmation text only — no JSON\n    output. Check exit code 0 for success.\n  - To build a URI from an ID: f\"spotify:track:\x7bid\x7d\"\n  - Search returns IDs you can pass directly to play, queue add, save, etc.\n  - For playlist operations, use the playlist ID (not URI).\n  - The \"artist\" field is a string for single artists, or a list of\n    strings (plain) / list of \x7bname, id\x7d dicts (JSON) for multiple artists.\n  - Limit defaults vary: search=10, saved/recent/top=20, playlists=50.\n  - Exit code 1 with stderr message on errors.\n"

/-- `main._parse_ids`: split on commas, strip whitespace, drop empties. -/
def _parse_ids (s : String) : List String :=
  ((pySplit s ',').map pyStrip).filter (fun x => x ≠ "")

/-- `main._get_flag`: find the first occurrence of `flag`; when a value
token follows, remove both and return the value; when the flag is last,
remove it and return the default; otherwise return the default with the
argument list untouched.  The source mutates the list in place; this
returns the value together with the list's final state. -/
def _get_flag (args : List String) (flag : String) (default : String) :
    String × List String :=
  if flag ∈ args then
    let idx := args.indexOf flag
    if idx + 1 < args.length then
      (args.getD (idx + 1) "", (args.eraseIdx idx).eraseIdx idx)
    else (default, args.eraseIdx idx)
  else (default, args)

/-- `main.TIME_RANGE_MAP.get(key, default)`. -/
def TIME_RANGE_MAP_get (key : String) (default : String) : String :=
  if key = "short" then "short_term"
  else if key = "medium" then "medium_term"
  else if key = "long" then "long_term"
  else default

/-- Truthiness of the optional positional URI (`args[0] if args else None`):
`None` and the empty string are falsy. -/
def optTruthy : Option String → Bool
  | none => false
  | some s => s ≠ ""

/-- The search-result dict of lists as a `Val` for JSON rendering. -/
def searchResultsVal (r : List (String × List Val)) : Val :=
  .dict (r.map (fun p => (p.1, .list p.2)))

/-- `main._dispatch`, fuelled.  The only recursion in the source is the
`sp playlist <id> create …` redirect, which re-enters `_dispatch` with an
argument list one token shorter, so `args.length + 1` fuel always suffices
(the fuel-exhausted branch mirrors Python's `RecursionError`, which no
actual input reaches). -/
def dispatchAux (sp : Stub) : Nat → String → List String → Bool → M Unit
  | 0, _, _, _ => throwExc "RecursionError: maximum recursion depth exceeded"
  | fuel + 1, cmd, args, use_json =>
    if cmd = "now" then do
      let result ← now_playing sp
      if use_json then put (as_json result)
      else do
        let l ← liftE (format_now_playing result)
        put l
    else if cmd = "play" then do
      let uri := args.head?
      play sp uri
      put (if optTruthy uri then "Playing." else "Resumed.")
    else if cmd = "pause" then do
      pause sp
      put "Paused."
    else if cmd = "skip" then do
      let n ← (match args with
        | [] => pure (1 : Int)
        | a :: _ => liftE (pyInt a))
      skip sp n
      put ("Skipped " ++ toString n ++ " track(s).")
    else if cmd = "prev" then do
      prev sp
      put "Previous track."
    else if cmd = "volume" then
      match args with
      | [] => do
        eput "Usage: sp volume <0-100>"
        sysExit 1
      | a :: _ => do
        let level ← liftE (pyInt a)
        volume sp level
        put ("Volume: " ++ toString level ++ "%")
    else if cmd = "devices" then do
      let result ← devices sp
      if use_json then put (as_json result)
      else
        if !truthy result then put "No devices found."
        else do
          let ds ← liftE (asList result)
          ds.forM (fun d => do
            let l ← liftE (format_device d)
            put l)
    else if cmd = "queue" then
      if args.head? = some "add" then
        if args.length < 2 then do
          eput "Usage: sp queue add <uri>"
          sysExit 1
        else do
          queue_add sp (args.getD 1 "")
          put "Added to queue."
      else do
        let result ← get_queue sp
        if use_json then put (as_json result)
        else do
          let l ← liftE (format_queue result)
          put l
    else if cmd = "search" then
      if args.isEmpty then do
        eput "Usage: sp search <query> [--type TYPE] [--limit N]"
        sysExit 1
      else do
        let (qtype, args) := _get_flag args "--type" "track"
        let (limitS, args) := _get_flag args "--limit" "10"
        let limit ← liftE (pyInt limitS)
        let query := String.intercalate " " args
        let result ← search sp query qtype limit
        if use_json then put (as_json (searchResultsVal result))
        else do
          let l ← liftE (format_search_results result)
          put l
    else if cmd = "info" then
      if args.isEmpty then do
        eput "Usage: sp info <spotify:type:id>"
        sysExit 1
      else do
        let uri := args.headD ""
        let result ← info sp uri
        if use_json then put (as_json result)
        else do
          let uri_type :=
            if (pySplit uri ':').length ≥ 2 then (pySplit uri ':').getD 1 "" else ""
          if uri_type = "artist" then do
            let l ← liftE (format_artist_info result)
            put l
          else if uri_type = "playlist" then do
            let l ← liftE (format_playlist_detail result)
            put l
          else if uri_type = "album" then do
            let head ← liftE (format_album result)
            let tv ← liftE (dGet result "tracks")
            let lines ← (if truthy tv then do
                let tls ← liftE (getItem result "tracks")
                let tl ← liftE (asList tls)
                (List.enumFrom 1 tl).foldlM (fun acc p => do
                  let l ← liftE (format_track p.2)
                  pure (acc ++ ["  " ++ toString p.1 ++ ". " ++ l])) [head]
              else pure [head])
            put (String.intercalate "\n" lines)
          else do
            let l ← liftE (format_track result)
            put l
    else if cmd = "playlists" then do
      let (limitS, _args) := _get_flag args "--limit" "50"
      let limit ← liftE (pyInt limitS)
      let result ← playlists sp limit
      if use_json then put (as_json (.list result))
      else
        (List.enumFrom 1 result).forM (fun p => do
          let l ← liftE (format_playlist p.2)
          put (rjust (toString p.1) 3 ++ ". " ++ l))
    else if cmd = "playlist" then
      if args.isEmpty then do
        eput "Usage: sp playlist <id> [add|remove <ids>]"
        sysExit 1
      else
        let pid := args.headD ""
        if args.length ≥ 2 ∧ args.getD 1 "" = "create" then
          dispatchAux sp fuel "playlist" (["create"] ++ args.drop 2) use_json
        else if args.length ≥ 3 ∧ args.getD 1 "" = "add" then do
          let ids := _parse_ids (args.getD 2 "")
          playlist_add sp pid ids
          put ("Added " ++ toString ids.length ++ " track(s).")
        else if args.length ≥ 3 ∧ args.getD 1 "" = "remove" then do
          let ids := _parse_ids (args.getD 2 "")
          playlist_remove sp pid ids
          put ("Removed " ++ toString ids.length ++ " track(s).")
        else if pid = "create" then
          if args.length < 2 then do
            eput "Usage: sp playlist create \"<name>\" [--private] [--desc \"...\"]"
            sysExit 1
          else do
            let sub_args := args.drop 1
            let is_private := "--private" ∈ sub_args
            let sub_args := if is_private then sub_args.erase "--private" else sub_args
            let (desc, sub_args) := _get_flag sub_args "--desc" ""
            let name := String.intercalate " " sub_args
            let result ← playlist_create sp name (!is_private) desc
            if use_json then put (as_json result)
            else do
              let l ← liftE (format_playlist result)
              put ("Created: " ++ l)
        else do
          let result ← playlist_tracks sp pid 100
          if use_json then put (as_json (.list result))
          else do
            let l ← liftE (format_track_list result true)
            put l
    else if cmd = "saved" then
      if args.isEmpty then do
        eput "Usage: sp saved tracks|albums [--limit N]"
        sysExit 1
      else do
        let sub := args.headD ""
        let sub_args := args.drop 1
        let (limitS, _sub_args) := _get_flag sub_args "--limit" "20"
        let limit ← liftE (pyInt limitS)
        if sub = "tracks" then do
          let result ← saved_tracks sp limit
          if use_json then put (as_json (.list result))
          else do
            let l ← liftE (format_track_list result true)
            put l
        else if sub = "albums" then do
          let result ← saved_albums sp limit
          if use_json then put (as_json (.list result))
          else
            (List.enumFrom 1 result).forM (fun p => do
              let l ← liftE (format_album p.2)
              put (rjust (toString p.1) 3 ++ ". " ++ l))
        else do
          eput ("Unknown: sp saved " ++ sub ++ ". Use 'tracks' or 'albums'.")
          sysExit 1
    else if cmd = "save" then
      if args.length < 2 then do
        eput "Usage: sp save track|album <ids>"
        sysExit 1
      else do
        let sub := args.headD ""
        let ids := _parse_ids (args.getD 1 "")
        if sub = "track" then do
          save_tracks sp ids
          put ("Saved " ++ toString ids.length ++ " track(s).")
        else if sub = "album" then do
          save_albums sp ids
          put ("Saved " ++ toString ids.length ++ " album(s).")
        else do
          eput ("Unknown: sp save " ++ sub ++ ". Use 'track' or 'album'.")
          sysExit 1
    else if cmd = "unsave" then
      if args.length < 2 then do
        eput "Usage: sp unsave track|album <ids>"
        sysExit 1
      else do
        let sub := args.headD ""
        let ids := _parse_ids (args.getD 1 "")
        if sub = "track" then do
          unsave_tracks sp ids
          put ("Removed " ++ toString ids.length ++ " track(s).")
        else if sub = "album" then do
          unsave_albums sp ids
          put ("Removed " ++ toString ids.length ++ " album(s).")
        else do
          eput ("Unknown: sp unsave " ++ sub ++ ". Use 'track' or 'album'.")
          sysExit 1
    else if cmd = "recent" then do
      let (limitS, _sub_args) := _get_flag args "--limit" "20"
      let limit ← liftE (pyInt limitS)
      let result ← recent sp limit
      if use_json then put (as_json (.list result))
      else do
        let l ← liftE (format_track_list result true)
        put l
    else if cmd = "top" then
      if args.isEmpty then do
        eput "Usage: sp top tracks|artists [--range short|medium|long] [--limit N]"
        sysExit 1
      else do
        let sub := args.headD ""
        let sub_args := args.drop 1
        let (time_range, sub_args) := _get_flag sub_args "--range" "medium"
        let (limitS, _sub_args) := _get_flag sub_args "--limit" "20"
        let limit ← liftE (pyInt limitS)
        let time_range_val := TIME_RANGE_MAP_get time_range "medium_term"
        if sub = "tracks" then do
          let result ← top_tracks sp time_range_val limit
          if use_json then put (as_json (.list result))
          else do
            let l ← liftE (format_track_list result true)
            put l
        else if sub = "artists" then do
          let result ← top_artists sp time_range_val limit
          if use_json then put (as_json (.list result))
          else
            (List.enumFrom 1 result).forM (fun p => do
              let l ← liftE (format_artist p.2)
              put (rjust (toString p.1) 3 ++ ". " ++ l))
        else do
          eput ("Unknown: sp top " ++ sub ++ ". Use 'tracks' or 'artists'.")
          sysExit 1
    else do
      eput ("Unknown command: " ++ cmd ++ ". Run 'sp help' for usage.")
      sysExit 1

/-- `main._dispatch`. -/
def _dispatch (sp : Stub) (cmd : String) (args : List String) (use_json : Bool) :
    M Unit :=
  dispatchAux sp (args.length + 1) cmd args use_json

/-- `main.main()`: help/agent short-circuits, `--json` extraction (first
occurrence removed), then dispatch under the `except Exception` contract —
an exception prints `Error: <msg>` to stderr and exits 1, `sys.exit(n)`
(SystemExit, not caught by `except Exception`) keeps its code, success
exits 0.  Returns the observable state and the exit code.  The remote
client construction (`get_client`) is environment/credential handling
outside the modelled core; the stub stands for its result. -/
def runMain (sp : Stub) (argv : List String) : DState × Nat :=
  if argv.isEmpty ∨ argv.headD "" = "help" ∨ argv.headD "" = "--help" ∨
      argv.headD "" = "-h" then
    ({ calls := [], out := [HELP_TEXT], err := [] }, 0)
  else if argv.headD "" = "agent" then
    ({ calls := [], out := [AGENT_TEXT], err := [] }, 0)
  else
    let use_json := "--json" ∈ argv
    let args := if use_json then argv.erase "--json" else argv
    match args with
    | [] => ({ calls := [], out := [], err := ["IndexError: list index out of range"] }, 1)
    | cmd :: rest =>
      match _dispatch sp cmd rest use_json DState.init with
      | (.ok _, st) => (st, 0)
      | (.error (.exc m), st) => ({ st with err := st.err ++ ["Error: " ++ m] }, 1)
      | (.error (.exit code), st) => (st, code)

/-! ## Spec-side definitions and fixtures -/

/-- The provider result block and output key served by one requested
category token of `parse_search_results` (`none` for unknown tokens,
which the source ignores). -/
def categoryKey (q : String) : Option String :=
  if q = "track" then some "tracks"
  else if q = "artist" then some "artists"
  else if q = "playlist" then some "playlists"
  else if q = "album" then some "albums"
  else none

/-- Fixture: a well-formed raw artist item. -/
def exArtistItem : Val := .dict [("name", .str "A"), ("id", .str "a1")]

/-- Fixture: a well-formed raw track item with one artist. -/
def exTrackItem : Val :=
  .dict [("name", .str "T"), ("id", .str "t1"), ("artists", .list [exArtistItem])]

/-- Fixture: the summary normalization of `exTrackItem`. -/
def exTrackNorm : Val :=
  .dict [("name", .str "T"), ("id", .str "t1"), ("artist", .str "A")]

/-- Fixture: a second raw artist item. -/
def exArtistItem2 : Val := .dict [("name", .str "B"), ("id", .str "a2")]

/-- Fixture: a raw album item with two artists, in provider order A then B. -/
def exAlbumTwoArtists : Val :=
  .dict [("name", .str "Al"), ("id", .str "al1"),
    ("artists", .list [exArtistItem, exArtistItem2])]

/-- Fixture: a search payload with one track match and zero album matches. -/
def exSearchResults : Val :=
  .dict [("tracks", .dict [("items", .list [exTrackItem])]),
    ("albums", .dict [("items", .list [])])]

/-- Fixture: a raw playlist whose single item holds a deleted (null) track. -/
def exPlaylistNullTrack : Val :=
  .dict [("name", .str "P"), ("id", .str "p1"),
    ("owner", .dict [("display_name", .str "alice")]),
    ("tracks", .dict [("total", .int 1),
      ("items", .list [.dict [("track", .null)]])])]

/-- Fixture: a stub whose queue payload holds a null entry followed by a
well-formed track. -/
def exQueueStub : Stub :=
  ⟨fun name =>
    if name = "queue" then
      .dict [("currently_playing", .null), ("queue", .list [.null, exTrackItem])]
    else .null⟩

/-- Fixture: a stub whose `current_user` and `user_playlist_create`
responses let `playlist create` succeed. -/
def exCreateStub : Stub :=
  ⟨fun name =>
    if name = "current_user" then
      .dict [("display_name", .str "alice"), ("id", .str "u1")]
    else if name = "user_playlist_create" then
      .dict [("name", .str "MyList"), ("id", .str "p1"),
        ("owner", .dict [("display_name", .str "alice")]),
        ("tracks", .dict [("total", .int 0), ("items", .list [])]),
        ("description", .str "")]
    else .null⟩

/-- Fixture: a stub returning an empty device list and a search payload
with one track match; enough for the playback and search commands. -/
def exBenignStub : Stub :=
  ⟨fun name =>
    if name = "devices" then .dict [("devices", .list [])]
    else if name = "current_user" then
      .dict [("display_name", .str "alice"), ("id", .str "u1")]
    else if name = "search" then exSearchResults
    else .null⟩

/-! ## Helper lemmas -/

/-- The summary projection of `parse_track` is exactly `parse_track0`:
the knot-breaking helper agrees with the real definition. -/
theorem parse_track_false (t : Val) : parse_track t false = parse_track0 t := rfl

theorem okBind {α β : Type} (a : α) (f : α → Except String β) :
    (Except.ok a >>= f) = f a := rfl

theorem errBind {α β : Type} (e : String) (f : α → Except String β) :
    ((Except.error e : Except String α) >>= f) = Except.error e := rfl

theorem mbind_ok {α β : Type} (x : M α) (f : α → M β) {s : DState} {a : α}
    {s' : DState} (hx : x s = (.ok a, s')) : (x >>= f) s = f a s' := by
  show (match x s with
    | (.ok a, s') => f a s'
    | (.error e, s') => (.error e, s')) = _
  rw [hx]

theorem mbind_err {α β : Type} (x : M α) (f : α → M β) {s : DState}
    {e : PyErr} {s' : DState} (hx : x s = (.error e, s')) :
    (x >>= f) s = (.error e, s') := by
  show (match x s with
    | (.ok a, s') => f a s'
    | (.error e, s') => (.error e, s')) = _
  rw [hx]

theorem liftE_apply {α : Type} (x : Except String α) (s : DState) :
    liftE x s = ((match x with
      | .ok a => .ok a
      | .error e => .error (.exc e)), s) := by
  cases x <;> rfl

theorem mapM_ok_length {α β : Type} (f : α → Except String β) :
    ∀ (xs : List α) (ys : List β), xs.mapM f = .ok ys → ys.length = xs.length := by
  intro xs
  induction xs with
  | nil => intro ys h; simp [List.mapM, List.mapM.loop, pure, Except.pure] at h; simp [← h]
  | cons x rest ih =>
    intro ys h
    rw [List.mapM_cons] at h
    rcases hx : f x with e | b <;> rw [hx] at h <;>
      simp only [okBind, errBind] at h
    · exact Except.noConfusion h
    rcases hr : rest.mapM f with e | bs <;> rw [hr] at h <;>
      simp only [okBind, errBind] at h
    · exact Except.noConfusion h
    simp only [pure, Except.pure, Except.ok.injEq] at h
    subst h
    simp [ih bs hr]

theorem mapM_ok_get {α β : Type} (f : α → Except String β) :
    ∀ (xs : List α) (ys : List β), xs.mapM f = .ok ys →
      ∀ (i : Nat) (hi : i < xs.length) (hi' : i < ys.length),
        f (xs.get ⟨i, hi⟩) = .ok (ys.get ⟨i, hi'⟩) := by
  intro xs
  induction xs with
  | nil => intro ys h i hi; exact absurd hi (by simp)
  | cons x rest ih =>
    intro ys h i hi hi'
    rw [List.mapM_cons] at h
    rcases hx : f x with e | b <;> rw [hx] at h <;>
      simp only [okBind, errBind] at h
    · exact Except.noConfusion h
    rcases hr : rest.mapM f with e | bs <;> rw [hr] at h <;>
      simp only [okBind, errBind] at h
    · exact Except.noConfusion h
    simp only [pure, Except.pure, Except.ok.injEq] at h
    subst h
    cases i with
    | zero => simpa using hx
    | succ j =>
      have hj : j < rest.length := by simpa using hi
      have hj' : j < bs.length := by simpa using hi'
      simpa using ih bs hr j hj hj'

/-- A truthy item never normalizes to the absent value, and a falsy one
always does (summary track projection). -/
theorem parse_track0_null_iff (item : Val) :
    parse_track0 item = .ok .null ↔ truthy item = false := by
  constructor
  · intro h
    by_contra hne
    rw [Bool.not_eq_false] at hne
    unfold parse_track0 at h
    rw [hne] at h
    simp only [Bool.not_true, Bool.false_eq_true, if_false, pure, Except.pure,
      okBind, errBind] at h
    rcases hn : getItem item "name" with e | name <;> rw [hn] at h <;>
        simp only [okBind, errBind] at h
    · exact Except.noConfusion h
    rcases hi : getItem item "id" with e | id <;> rw [hi] at h <;>
        simp only [okBind, errBind] at h
    · exact Except.noConfusion h
    rcases hp : dGetD item "is_playable" (.bool true) with e | p <;> rw [hp] at h <;>
        simp only [okBind, errBind] at h
    · exact Except.noConfusion h
    rcases ha : getItem item "artists" with e | ar <;> rw [ha] at h <;>
        simp only [okBind, errBind] at h
    · exact Except.noConfusion h
    rcases hl : asList ar with e | ll <;> rw [hl] at h <;>
        simp only [okBind, errBind] at h
    · exact Except.noConfusion h
    rcases hm : ll.mapM (fun a => getItem a "name") with e | names <;> rw [hm] at h <;>
        simp only [okBind, errBind] at h
    · exact Except.noConfusion h
    exact Val.noConfusion ((Except.ok.injEq _ _).mp h)
  · intro h
    unfold parse_track0
    rw [h]
    rfl

/-- A truthy item never normalizes to the absent value, and a falsy one
always does (`parse_track`, both projections). -/
theorem parse_track_null_iff (item : Val) (d : Bool) :
    parse_track item d = .ok .null ↔ truthy item = false := by
  cases d
  · rw [parse_track_false]
    exact parse_track0_null_iff item
  constructor
  · intro h
    by_contra hne
    rw [Bool.not_eq_false] at hne
    unfold parse_track at h
    rw [hne] at h
    simp only [Bool.not_true, Bool.false_eq_true, if_false, if_true, pure,
      Except.pure, okBind, errBind] at h
    rcases hn : getItem item "name" with e | name <;> rw [hn] at h <;>
        simp only [okBind, errBind] at h
    · exact Except.noConfusion h
    rcases hi : getItem item "id" with e | id <;> rw [hi] at h <;>
        simp only [okBind, errBind] at h
    · exact Except.noConfusion h
    rcases hal : dGet item "album" with e | albumRaw <;> rw [hal] at h <;>
        simp only [okBind, errBind] at h
    · exact Except.noConfusion h
    rcases hpa : parse_album albumRaw false with e | album <;> rw [hpa] at h <;>
        simp only [okBind, errBind] at h
    · exact Except.noConfusion h
    rcases htn : dGet item "track_number" with e | tn <;> rw [htn] at h <;>
        simp only [okBind, errBind] at h
    · exact Except.noConfusion h
    rcases hdm : dGet item "duration_ms" with e | dm <;> rw [hdm] at h <;>
        simp only [okBind, errBind] at h
    · exact Except.noConfusion h
    rcases hp : dGetD item "is_playable" (.bool true) with e | p <;> rw [hp] at h <;>
        simp only [okBind, errBind] at h
    · exact Except.noConfusion h
    rcases ha : getItem item "artists" with e | ar <;> rw [ha] at h <;>
        simp only [okBind, errBind] at h
    · exact Except.noConfusion h
    rcases hl : asList ar with e | ll <;> rw [hl] at h <;>
        simp only [okBind, errBind] at h
    · exact Except.noConfusion h
    rcases hm : ll.mapM (fun a => getItem a "name") with e | names <;> rw [hm] at h <;>
        simp only [okBind, errBind] at h
    · exact Except.noConfusion h
    rcases hm2 : ll.mapM (fun a => parse_artist a false) with e | arts <;>
        rw [hm2] at h <;> simp only [okBind, errBind] at h
    · exact Except.noConfusion h
    exact Val.noConfusion ((Except.ok.injEq _ _).mp h)
  · intro h
    unfold parse_track
    rw [h]
    rfl

/-! ## C1 — malformed track items -/

/-- C1 (counterexample): the claim says every malformed or empty-id track
item normalizes to the absent value without raising.  In fact a present
item missing its `id` raises `KeyError: id`, and a present item with an
empty-string `id` normalizes to a record, not the absent value. -/
theorem C1_counterexample :
    parse_track (.dict [("name", .str "x")]) false = .error "KeyError: id" ∧
    parse_track (.dict [("name", .str "T"), ("id", .str ""),
        ("artists", .list [exArtistItem])]) false =
      .ok (.dict [("name", .str "T"), ("id", .str ""), ("artist", .str "A")]) ∧
    (.dict [("name", .str "T"), ("id", .str ""), ("artist", .str "A")] : Val) ≠
      .null := by
  refine ⟨rfl, rfl, ?_⟩
  intro h
  exact Val.noConfusion h

/-- C1 (amended): the track normalizer returns the absent value exactly
when the provider item itself is null/empty (falsy), in either projection;
a present item with an empty-string id is normalized into a record, and a
present item missing the `name`, `id` or `artists` field raises a
`KeyError` instead of returning the absent value. -/
theorem C1_absent_iff_falsy :
    (∀ (item : Val) (d : Bool),
      parse_track item d = .ok .null ↔ truthy item = false) ∧
    parse_track (.dict [("name", .str "x")]) false = .error "KeyError: id" ∧
    parse_track (.dict [("name", .str "T"), ("id", .str ""),
        ("artists", .list [exArtistItem])]) false =
      .ok (.dict [("name", .str "T"), ("id", .str ""), ("artist", .str "A")]) :=
  ⟨parse_track_null_iff, rfl, rfl⟩

/-- A `defaultdict(list)` append yields entries that are either the
appended key with a nonempty list or entries already present. -/
theorem ddAppend_mem (k : String) (v : Val) :
    ∀ (acc : List (String × List Val)) (k' : String) (l' : List Val),
      (k', l') ∈ ddAppend acc k v → (k' = k ∧ l' ≠ []) ∨ (k', l') ∈ acc := by
  intro acc
  induction acc with
  | nil =>
    intro k' l' h
    simp only [ddAppend, List.mem_singleton, Prod.mk.injEq] at h
    exact Or.inl ⟨h.1, by simp [h.2]⟩
  | cons p rest ih =>
    intro k' l' h
    obtain ⟨pk, pl⟩ := p
    simp only [ddAppend] at h
    by_cases hk : pk = k
    · rw [if_pos hk] at h
      rcases List.mem_cons.mp h with heq | hmem
      · rw [Prod.mk.injEq] at heq
        exact Or.inl ⟨heq.1.trans hk, by simp [heq.2]⟩
      · exact Or.inr (List.mem_cons_of_mem _ hmem)
    · rw [if_neg hk] at h
      rcases List.mem_cons.mp h with heq | hmem
      · exact Or.inr (List.mem_cons.mpr (Or.inl heq))
      · rcases ih k' l' hmem with hl | hr
        · exact Or.inl hl
        · exact Or.inr (List.mem_cons_of_mem _ hr)

/-- Invariant of the per-category collection loop: it only ever creates or
extends the entry for its own `key`, with a nonempty list. -/
theorem collectLoop_mem (key : String) (norm : Val → Except String Val) :
    ∀ (items : List Val) (acc out : List (String × List Val)),
      List.foldlM (fun acc item =>
        if truthy item then do
          let v ← norm item
          pure (ddAppend acc key v)
        else pure acc) acc items = .ok out →
      ∀ k' l', (k', l') ∈ out → (k' = key ∧ l' ≠ []) ∨ (k', l') ∈ acc := by
  intro items
  induction items with
  | nil =>
    intro acc out h k' l' hm
    simp only [List.foldlM_nil, pure, Except.pure, Except.ok.injEq] at h
    subst h
    exact Or.inr hm
  | cons x xs ih =>
    intro acc out h k' l' hm
    rw [List.foldlM_cons] at h
    by_cases ht : truthy x = true
    · rw [if_pos ht] at h
      rcases hn : norm x with e | v <;> rw [hn] at h <;>
        simp only [okBind, errBind, pure, Except.pure] at h
      · exact Except.noConfusion h
      rcases ih (ddAppend acc key v) out h k' l' hm with hl | hr
      · exact Or.inl hl
      · rcases ddAppend_mem key v acc k' l' hr with hl2 | hr2
        · exact Or.inl hl2
        · exact Or.inr hr2
    · rw [if_neg ht] at h
      simp only [pure, Except.pure, okBind] at h
      exact ih acc out h k' l' hm

/-- Invariant of `searchCollect`: entries are the collected key with a
nonempty list, or were already in the accumulator. -/
theorem searchCollect_mem (acc out : List (String × List Val)) (key : String)
    (norm : Val → Except String Val) (results : Val)
    (h : searchCollect acc key norm results = .ok out) :
    ∀ k' l', (k', l') ∈ out → (k' = key ∧ l' ≠ []) ∨ (k', l') ∈ acc := by
  intro k' l' hm
  unfold searchCollect at h
  rcases hb : getItem results key with e | block <;> rw [hb] at h <;>
    simp only [okBind, errBind] at h
  · exact Except.noConfusion h
  rcases hiv : getItem block "items" with e | itemsRaw <;> rw [hiv] at h <;>
    simp only [okBind, errBind] at h
  · exact Except.noConfusion h
  rcases hl : asList itemsRaw with e | items <;> rw [hl] at h <;>
    simp only [okBind, errBind] at h
  · exact Except.noConfusion h
  exact collectLoop_mem key norm items acc out h k' l' hm

/-- Invariant of the category fold of `parse_search_results`. -/
theorem searchFold_mem (results : Val) (username : Val) :
    ∀ (cats : List String) (acc out : List (String × List Val)),
      List.foldlM (fun acc q =>
        if q = "track" then
          searchCollect acc "tracks" (fun i => parse_track i false) results
        else if q = "artist" then
          searchCollect acc "artists" (fun i => parse_artist i false) results
        else if q = "playlist" then
          searchCollect acc "playlists" (fun i => parse_playlist i username false) results
        else if q = "album" then
          searchCollect acc "albums" (fun i => parse_album i false) results
        else
          pure acc) acc cats = .ok out →
      ∀ k' l', (k', l') ∈ out →
        ((∃ q ∈ cats, categoryKey q = some k') ∧ l' ≠ []) ∨ (k', l') ∈ acc := by
  intro cats
  induction cats with
  | nil =>
    intro acc out h k' l' hm
    simp only [List.foldlM_nil, pure, Except.pure, Except.ok.injEq] at h
    subst h
    exact Or.inr hm
  | cons q qs ih =>
    intro acc out h k' l' hm
    rw [List.foldlM_cons] at h
    by_cases h1 : q = "track"
    · rw [if_pos h1] at h
      rcases hsc : searchCollect acc "tracks" (fun i => parse_track i false) results
          with e | acc' <;> rw [hsc] at h <;> simp only [okBind, errBind] at h
      · exact Except.noConfusion h
      rcases ih acc' out h k' l' hm with ⟨⟨q', hq', hck⟩, hne⟩ | hr
      · exact Or.inl ⟨⟨q', List.mem_cons_of_mem _ hq', hck⟩, hne⟩
      · rcases searchCollect_mem acc acc' "tracks" _ results hsc k' l' hr with ⟨hk, hne⟩ | hr2
        · exact Or.inl ⟨⟨q, List.mem_cons_self _ _, by simp [h1, categoryKey, hk]⟩, hne⟩
        · exact Or.inr hr2
    · rw [if_neg h1] at h
      by_cases h2 : q = "artist"
      · rw [if_pos h2] at h
        rcases hsc : searchCollect acc "artists" (fun i => parse_artist i false) results
            with e | acc' <;> rw [hsc] at h <;> simp only [okBind, errBind] at h
        · exact Except.noConfusion h
        rcases ih acc' out h k' l' hm with ⟨⟨q', hq', hck⟩, hne⟩ | hr
        · exact Or.inl ⟨⟨q', List.mem_cons_of_mem _ hq', hck⟩, hne⟩
        · rcases searchCollect_mem acc acc' "artists" _ results hsc k' l' hr with ⟨hk, hne⟩ | hr2
          · exact Or.inl ⟨⟨q, List.mem_cons_self _ _, by simp [h1, h2, categoryKey, hk]⟩, hne⟩
          · exact Or.inr hr2
      · rw [if_neg h2] at h
        by_cases h3 : q = "playlist"
        · rw [if_pos h3] at h
          rcases hsc : searchCollect acc "playlists" (fun i => parse_playlist i username false) results
              with e | acc' <;> rw [hsc] at h <;> simp only [okBind, errBind] at h
          · exact Except.noConfusion h
          rcases ih acc' out h k' l' hm with ⟨⟨q', hq', hck⟩, hne⟩ | hr
          · exact Or.inl ⟨⟨q', List.mem_cons_of_mem _ hq', hck⟩, hne⟩
          · rcases searchCollect_mem acc acc' "playlists" _ results hsc k' l' hr with ⟨hk, hne⟩ | hr2
            · exact Or.inl ⟨⟨q, List.mem_cons_self _ _, by simp [h1, h2, h3, categoryKey, hk]⟩, hne⟩
            · exact Or.inr hr2
        · rw [if_neg h3] at h
          by_cases h4 : q = "album"
          · rw [if_pos h4] at h
            rcases hsc : searchCollect acc "albums" (fun i => parse_album i false) results
                with e | acc' <;> rw [hsc] at h <;> simp only [okBind, errBind] at h
            · exact Except.noConfusion h
            rcases ih acc' out h k' l' hm with ⟨⟨q', hq', hck⟩, hne⟩ | hr
            · exact Or.inl ⟨⟨q', List.mem_cons_of_mem _ hq', hck⟩, hne⟩
            · rcases searchCollect_mem acc acc' "albums" _ results hsc k' l' hr with ⟨hk, hne⟩ | hr2
              · exact Or.inl ⟨⟨q, List.mem_cons_self _ _, by simp [h1, h2, h3, h4, categoryKey, hk]⟩, hne⟩
              · exact Or.inr hr2
          · rw [if_neg h4] at h
            simp only [pure, Except.pure, okBind] at h
            rcases ih acc out h k' l' hm with ⟨⟨q', hq', hck⟩, hne⟩ | hr
            · exact Or.inl ⟨⟨q', List.mem_cons_of_mem _ hq', hck⟩, hne⟩
            · exact Or.inr hr

/-! ## C2 — search categories -/

/-- C2 (counterexample): with `--type track,album`, one track match and
zero album matches, the normalized result has only the `tracks` key; the
requested `albums` category is omitted entirely, not present with an empty
list as the claim states. -/
theorem C2_counterexample :
    parse_search_results exSearchResults "track,album" .null =
      .ok [("tracks", [exTrackNorm])] ∧
    "album" ∈ pySplit "track,album" ',' ∧
    ([("tracks", [exTrackNorm])].map Prod.fst) = ["tracks"] ∧
    "albums" ∉ ["tracks"] := by
  refine ⟨rfl, ?_, rfl, by decide⟩
  rw [show pySplit "track,album" ',' = ["track", "album"] from rfl]
  simp

/-- C2 (amended): every key of the normalized search result is the plural
key of some requested category and is mapped to a nonempty list of
normalized matches; a requested category with zero (or only null) provider
matches is omitted entirely, exactly like an unrequested category. -/
theorem C2_requested_keys_nonempty :
    ∀ (results : Val) (qtype : String) (username : Val)
      (out : List (String × List Val)),
      parse_search_results results qtype username = .ok out →
      ∀ k l, (k, l) ∈ out →
        l ≠ [] ∧ ∃ q ∈ pySplit qtype ',', categoryKey q = some k := by
  intro results qtype username out h k l hm
  unfold parse_search_results at h
  rcases searchFold_mem results username (pySplit qtype ',') [] out h k l hm with
    ⟨⟨q, hq, hck⟩, hne⟩ | habs
  · exact ⟨hne, q, hq, hck⟩
  · simp at habs

/-- C2 (witness): the amended theorem applied to the concrete fixture. -/
theorem C2_witness :
    ([("tracks", [exTrackNorm])] : List (String × List Val)) ≠ [] ∧
    ∃ q ∈ pySplit "track,album" ',', categoryKey q = some "tracks" := by
  have h := C2_requested_keys_nonempty exSearchResults "track,album" .null
    [("tracks", [exTrackNorm])] rfl "tracks" [exTrackNorm]
    (List.mem_singleton.mpr rfl)
  exact ⟨by simp, h.2⟩

/-- `item.get(k)` returning a truthy value implies `item[k]` returns the
same value (the key exists, since a missing key defaults to `None`). -/
theorem dGet_truthy_getItem (item : Val) (k : String) (t : Val)
    (hd : dGet item k = .ok t) (ht : truthy t = true) :
    getItem item k = .ok t := by
  cases item <;> simp only [dGet] at hd <;> try exact Except.noConfusion hd
  case dict fs =>
    have hv : (dlookup fs k).getD .null = t := by
      exact (Except.ok.injEq _ _).mp hd
    rcases hl : dlookup fs k with _ | v
    · rw [hl] at hv
      simp only [Option.getD_none] at hv
      rw [← hv] at ht
      exact absurd ht (by simp [truthy])
    · rw [hl] at hv
      simp only [Option.getD_some] at hv
      subst hv
      simp [getItem, hl]

/-- Invariant of the filtered comprehension: it can only keep normalized
entities of truthy raw values, so with `parse_track` it never emits a null
placeholder, and it never grows faster than the raw item list. -/
theorem filteredLoop_track :
    ∀ (items acc out : List Val),
      List.foldlM (fun acc item => do
        let t ← dGet item "track"
        if truthy t then do
          let e ← getItem item "track"
          let p ← parse_track e false
          pure (acc ++ [p])
        else pure acc) acc items = .ok out →
      out.length ≤ acc.length + items.length ∧
        ∀ t ∈ out, t ∈ acc ∨ t ≠ .null := by
  intro items
  induction items with
  | nil =>
    intro acc out h
    simp only [List.foldlM_nil, pure, Except.pure, Except.ok.injEq] at h
    subst h
    exact ⟨by simp, fun t ht => Or.inl ht⟩
  | cons x xs ih =>
    intro acc out h
    rw [List.foldlM_cons] at h
    rcases hd : dGet x "track" with e | t <;> rw [hd] at h <;>
      simp only [okBind, errBind] at h
    · exact Except.noConfusion h
    by_cases ht : truthy t = true
    · rw [if_pos ht] at h
      rw [dGet_truthy_getItem x "track" t hd ht] at h
      simp only [okBind] at h
      rcases hp : parse_track t false with e | p <;> rw [hp] at h <;>
        simp only [okBind, errBind, pure, Except.pure] at h
      · exact Except.noConfusion h
      obtain ⟨hlen, hmem⟩ := ih (acc ++ [p]) out h
      refine ⟨?_, ?_⟩
      · simp only [List.length_append, List.length_cons, List.length_singleton,
          List.length_nil] at hlen ⊢
        omega
      intro v hv
      rcases hmem v hv with hin | hne
      · rcases List.mem_append.mp hin with ha | hb
        · exact Or.inl ha
        · rw [List.mem_singleton.mp hb]
          refine Or.inr ?_
          intro hnull
          rw [hnull] at hp
          have := (parse_track_null_iff t false).mp hp
          rw [this] at ht
          exact Bool.noConfusion ht
      · exact Or.inr hne
    · rw [if_neg ht] at h
      simp only [pure, Except.pure, okBind] at h
      obtain ⟨hlen, hmem⟩ := ih acc out h
      refine ⟨?_, hmem⟩
      simp only [List.length_cons]
      omega

/-- The detailed playlist projection maps the raw item list one-to-one into
its `tracks` field: nothing is dropped, so the lengths agree. -/
theorem parse_playlist_tracks_length (p u tro : Val) (its : List Val)
    (fs : List (String × Val))
    (htr : getItem p "tracks" = .ok tro)
    (hit : getItem tro "items" = .ok (.list its))
    (h : parse_playlist p u true = .ok (.dict fs)) :
    ∃ ts, its.mapM (fun t => do
        let tr ← getItem t "track"
        parse_track tr false) = .ok ts ∧
      dlookup fs "tracks" = some (.list ts) ∧ ts.length = its.length := by
  unfold parse_playlist at h
  rcases htp : truthy p with _ | _
  · rw [htp] at h
    simp only [Bool.not_false, if_true, pure, Except.pure, Except.ok.injEq] at h
    exact Val.noConfusion h
  rw [htp] at h
  simp only [Bool.not_true, Bool.false_eq_true, if_false, if_true, pure,
    Except.pure, okBind, errBind] at h
  rcases hn : getItem p "name" with e | name <;> rw [hn] at h <;>
    simp only [okBind, errBind] at h
  · exact Except.noConfusion h
  rcases hi : getItem p "id" with e | id <;> rw [hi] at h <;>
    simp only [okBind, errBind] at h
  · exact Except.noConfusion h
  rcases ho : getItem p "owner" with e | owner <;> rw [ho] at h <;>
    simp only [okBind, errBind] at h
  · exact Except.noConfusion h
  rcases hon : getItem owner "display_name" with e | ownerName <;> rw [hon] at h <;>
    simp only [okBind, errBind] at h
  · exact Except.noConfusion h
  rw [htr] at h
  simp only [okBind] at h
  rcases htt : getItem tro "total" with e | total <;> rw [htt] at h <;>
    simp only [okBind, errBind] at h
  · exact Except.noConfusion h
  rcases hde : dGet p "description" with e | desc <;> rw [hde] at h <;>
    simp only [okBind, errBind] at h
  · exact Except.noConfusion h
  rw [hit] at h
  simp only [okBind, asList] at h
  rcases htm : its.mapM (fun t => do
      let tr ← getItem t "track"
      parse_track tr false) with e | ts <;> rw [htm] at h <;>
    simp only [okBind, errBind, pure, Except.pure, Except.ok.injEq] at h
  · exact Except.noConfusion h
  refine ⟨ts, htm, ?_, mapM_ok_length _ its ts htm⟩
  rw [← (Val.dict.injEq _ _).mp h]
  by_cases hu : truthy u = true <;>
    simp [hu, dictSet, dlookup]

/-! ## C3 — dropping absent tracks -/

/-- C3 (counterexample): a playlist whose single item holds a deleted
(null) track.  The detailed playlist normalization does not drop it: the
normalized `tracks` list is `[null]` — a null placeholder, same length as
the raw item list — contradicting the claim for this normalization path. -/
theorem C3_counterexample :
    parse_playlist exPlaylistNullTrack .null true =
      .ok (.dict [("name", .str "P"), ("id", .str "p1"),
        ("owner", .str "alice"), ("total_tracks", .int 1),
        ("description", .null), ("tracks", .list [.null])]) ∧
    ¬(∀ t ∈ [Val.null], t ≠ Val.null) := by
  refine ⟨rfl, ?_⟩
  intro hall
  exact hall .null (List.mem_singleton.mpr rfl) rfl

/-- C3 (amended): the drop happens in the client layer, not in
`parse_playlist`.  `client.playlist_tracks`'s filtered comprehension drops
every item whose `track` entity is falsy, so its output never contains a
null placeholder and is never longer than the raw item list; the detailed
`parse_playlist`, by contrast, maps the raw items one-to-one (null
placeholders included), preserving the length. -/
theorem C3_client_drops_parse_playlist_keeps :
    (∀ (items ts : List Val),
      filteredEntityItems items "track" (fun t => parse_track t false) = .ok ts →
      ts.length ≤ items.length ∧ ∀ t ∈ ts, t ≠ .null) ∧
    (∀ (p u tro : Val) (its : List Val) (fs : List (String × Val)),
      getItem p "tracks" = .ok tro →
      getItem tro "items" = .ok (.list its) →
      parse_playlist p u true = .ok (.dict fs) →
      ∃ ts, dlookup fs "tracks" = some (.list ts) ∧ ts.length = its.length) := by
  constructor
  · intro items ts h
    have := filteredLoop_track items [] ts h
    refine ⟨by simpa using this.1, ?_⟩
    intro t ht
    rcases this.2 t ht with hin | hne
    · exact absurd hin (List.not_mem_nil t)
    · exact hne
  · intro p u tro its fs htr hit h
    obtain ⟨ts, _, hlk, hlen⟩ := parse_playlist_tracks_length p u tro its fs htr hit h
    exact ⟨ts, hlk, hlen⟩

/-- C3 (witness): both parts applied to concrete inputs — the filtered
comprehension drops the null-track item, and the detailed normalization of
the null-track playlist keeps it. -/
theorem C3_witness :
    (([exTrackNorm] : List Val).length ≤
        ([Val.dict [("track", .null)], Val.dict [("track", exTrackItem)]] : List Val).length ∧
      ∀ t ∈ [exTrackNorm], t ≠ Val.null) ∧
    (∃ ts, dlookup [("name", Val.str "P"), ("id", Val.str "p1"),
        ("owner", Val.str "alice"), ("total_tracks", Val.int 1),
        ("description", Val.null), ("tracks", Val.list [Val.null])] "tracks" =
          some (.list ts) ∧
      ts.length = ([Val.dict [("track", Val.null)]] : List Val).length) := by
  constructor
  · exact C3_client_drops_parse_playlist_keeps.1
      [Val.dict [("track", .null)], Val.dict [("track", exTrackItem)]]
      [exTrackNorm] rfl
  · exact C3_client_drops_parse_playlist_keeps.2 exPlaylistNullTrack .null
      (.dict [("total", .int 1), ("items", .list [.dict [("track", .null)]])])
      [.dict [("track", .null)]]
      [("name", .str "P"), ("id", .str "p1"), ("owner", .str "alice"),
        ("total_tracks", .int 1), ("description", .null),
        ("tracks", .list [.null])]
      rfl rfl rfl

/-- The `artist` field of a normalized track is the single-or-list union of
the order-preserving map over the raw `artists` list: names in summary
mode, normalized artists in detailed mode. -/
theorem parse_track_artist_field (item : Val) (d : Bool)
    (fs : List (String × Val)) (as : List Val)
    (ha : getItem item "artists" = .ok (.list as))
    (h : parse_track item d = .ok (.dict fs)) :
    ∃ arts, (if d then as.mapM (fun a => parse_artist a false)
             else as.mapM (fun a => getItem a "name")) = .ok arts ∧
      arts.length = as.length ∧ dlookup fs "artist" = some (singleOrList arts) := by
  cases d
  · rw [parse_track_false] at h
    unfold parse_track0 at h
    rcases htp : truthy item with _ | _
    · rw [htp] at h
      simp only [Bool.not_false, if_true, pure, Except.pure, Except.ok.injEq] at h
      exact Val.noConfusion h
    rw [htp] at h
    simp only [Bool.not_true, Bool.false_eq_true, if_false, pure, Except.pure,
      okBind, errBind] at h
    rcases hn : getItem item "name" with e | name <;> rw [hn] at h <;>
      simp only [okBind, errBind] at h
    · exact Except.noConfusion h
    rcases hi : getItem item "id" with e | id <;> rw [hi] at h <;>
      simp only [okBind, errBind] at h
    · exact Except.noConfusion h
    rcases hp : dGetD item "is_playable" (.bool true) with e | p <;> rw [hp] at h <;>
      simp only [okBind, errBind] at h
    · exact Except.noConfusion h
    rw [ha] at h
    simp only [okBind, asList] at h
    rcases hm : as.mapM (fun a => getItem a "name") with e | names <;> rw [hm] at h <;>
      simp only [okBind, errBind, pure, Except.pure, Except.ok.injEq] at h
    · exact Except.noConfusion h
    refine ⟨names, by simpa using hm, mapM_ok_length _ as names hm, ?_⟩
    rw [← (Val.dict.injEq _ _).mp h]
    by_cases h1 : hasKey item "is_playing" = true <;>
      by_cases h2 : truthy p = true <;>
      simp [h1, h2, dictSet, dlookup]
  · unfold parse_track at h
    rcases htp : truthy item with _ | _
    · rw [htp] at h
      simp only [Bool.not_false, if_true, pure, Except.pure, Except.ok.injEq] at h
      exact Val.noConfusion h
    rw [htp] at h
    simp only [Bool.not_true, Bool.false_eq_true, if_false, if_true, pure,
      Except.pure, okBind, errBind] at h
    rcases hn : getItem item "name" with e | name <;> rw [hn] at h <;>
      simp only [okBind, errBind] at h
    · exact Except.noConfusion h
    rcases hi : getItem item "id" with e | id <;> rw [hi] at h <;>
      simp only [okBind, errBind] at h
    · exact Except.noConfusion h
    rcases hal : dGet item "album" with e | albumRaw <;> rw [hal] at h <;>
      simp only [okBind, errBind] at h
    · exact Except.noConfusion h
    rcases hpa : parse_album albumRaw false with e | album <;> rw [hpa] at h <;>
      simp only [okBind, errBind] at h
    · exact Except.noConfusion h
    rcases htn : dGet item "track_number" with e | tn <;> rw [htn] at h <;>
      simp only [okBind, errBind] at h
    · exact Except.noConfusion h
    rcases hdm : dGet item "duration_ms" with e | dm <;> rw [hdm] at h <;>
      simp only [okBind, errBind] at h
    · exact Except.noConfusion h
    rcases hp : dGetD item "is_playable" (.bool true) with e | p <;> rw [hp] at h <;>
      simp only [okBind, errBind] at h
    · exact Except.noConfusion h
    rw [ha] at h
    simp only [okBind, asList] at h
    rcases hm : as.mapM (fun a => getItem a "name") with e | names <;> rw [hm] at h <;>
      simp only [okBind, errBind] at h
    · exact Except.noConfusion h
    rcases hm2 : as.mapM (fun a => parse_artist a false) with e | arts <;>
      rw [hm2] at h <;>
      simp only [okBind, errBind, pure, Except.pure, Except.ok.injEq] at h
    · exact Except.noConfusion h
    refine ⟨arts, by simpa using hm2, mapM_ok_length _ as arts hm2, ?_⟩
    rw [← (Val.dict.injEq _ _).mp h]
    by_cases h1 : hasKey item "is_playing" = true <;>
      by_cases h2 : truthy p = true <;>
      simp [h1, h2, dictSet, dlookup]

/-- Iterating a literal list value yields its elements. -/
theorem asList_list (xs : List Val) : asList (.list xs) = .ok xs := rfl

/-- The `artist` field of a normalized album follows the same
single-or-list union rule over the order-preserving artists map. -/
theorem parse_album_artist_field (item : Val) (d : Bool)
    (fs : List (String × Val)) (as : List Val)
    (ha : getItem item "artists" = .ok (.list as))
    (h : parse_album item d = .ok (.dict fs)) :
    ∃ arts, (if d then as.mapM (fun a => parse_artist a false)
             else as.mapM (fun a => getItem a "name")) = .ok arts ∧
      arts.length = as.length ∧ dlookup fs "artist" = some (singleOrList arts) := by
  unfold parse_album at h
  rcases htp : truthy item with _ | _
  · rw [htp] at h
    simp only [Bool.not_false, if_true, pure, Except.pure, Except.ok.injEq] at h
    exact Val.noConfusion h
  rw [htp] at h
  simp only [Bool.not_true, Bool.false_eq_true, if_false, pure, Except.pure,
    okBind, errBind] at h
  rcases hn : getItem item "name" with e | name <;> rw [hn] at h <;>
    simp only [okBind, errBind] at h
  · exact Except.noConfusion h
  rcases hi : getItem item "id" with e | id <;> rw [hi] at h <;>
    simp only [okBind, errBind] at h
  · exact Except.noConfusion h
  rw [ha] at h
  simp only [okBind] at h
  rw [asList_list] at h
  simp only [okBind] at h
  rcases hm : as.mapM (fun a => getItem a "name") with e | names <;> rw [hm] at h <;>
    simp only [okBind, errBind] at h
  · exact Except.noConfusion h
  cases d
  · simp only [Bool.false_eq_true, if_false, pure, Except.pure, okBind,
      Except.ok.injEq] at h
    refine ⟨names, by simpa using hm, mapM_ok_length _ as names hm, ?_⟩
    rw [← (Val.dict.injEq _ _).mp h]
    simp [dictSet, dlookup]
  · simp only [if_true, okBind, errBind] at h
    rcases hto : dGetD item "tracks" (.dict []) with e | tracksObj <;>
      rw [hto] at h <;> simp only [okBind, errBind] at h
    · exact Except.noConfusion h
    rcases hir : dGetD tracksObj "items" (.list []) with e | itemsRaw <;>
      rw [hir] at h <;> simp only [okBind, errBind] at h
    · exact Except.noConfusion h
    rcases hil : asList itemsRaw with e | items <;> rw [hil] at h <;>
      simp only [okBind, errBind] at h
    · exact Except.noConfusion h
    rcases htm : items.mapM (fun t => parse_track0 t) with e | tracks <;>
      rw [htm] at h <;> simp only [okBind, errBind] at h
    · exact Except.noConfusion h
    rcases hm2 : as.mapM (fun a => parse_artist a false) with e | arts <;>
      rw [hm2] at h <;> simp only [okBind, errBind] at h
    · exact Except.noConfusion h
    rcases htt : dGet item "total_tracks" with e | tt <;> rw [htt] at h <;>
      simp only [okBind, errBind] at h
    · exact Except.noConfusion h
    rcases hrd : dGet item "release_date" with e | rd <;> rw [hrd] at h <;>
      simp only [okBind, errBind] at h
    · exact Except.noConfusion h
    rcases hgs : dGet item "genres" with e | gs <;> rw [hgs] at h <;>
      simp only [okBind, errBind, pure, Except.pure, Except.ok.injEq] at h
    · exact Except.noConfusion h
    refine ⟨arts, by simpa using hm2, mapM_ok_length _ as arts hm2, ?_⟩
    rw [← (Val.dict.injEq _ _).mp h]
    simp [dictSet, dlookup]

/-! ## C7 — the artist-name union -/

/-- C7: for both tracks and albums, the `artist` field is
`singleOrList` of the order-preserving map over the provider's `artists`
list (names in summary mode, normalized artists in detailed mode):
exactly one contributor yields that single value, two or more yield the
ordered list. -/
theorem C7_artist_union :
    (∀ (item : Val) (d : Bool) (fs : List (String × Val)) (as : List Val),
      getItem item "artists" = .ok (.list as) →
      parse_track item d = .ok (.dict fs) →
      ∃ arts, (if d then as.mapM (fun a => parse_artist a false)
               else as.mapM (fun a => getItem a "name")) = .ok arts ∧
        arts.length = as.length ∧
        dlookup fs "artist" = some (singleOrList arts)) ∧
    (∀ (item : Val) (d : Bool) (fs : List (String × Val)) (as : List Val),
      getItem item "artists" = .ok (.list as) →
      parse_album item d = .ok (.dict fs) →
      ∃ arts, (if d then as.mapM (fun a => parse_artist a false)
               else as.mapM (fun a => getItem a "name")) = .ok arts ∧
        arts.length = as.length ∧
        dlookup fs "artist" = some (singleOrList arts)) ∧
    (∀ a : Val, singleOrList [a] = a) ∧
    (∀ (x y : Val) (rest : List Val),
      singleOrList (x :: y :: rest) = .list (x :: y :: rest)) :=
  ⟨parse_track_artist_field, parse_album_artist_field,
    fun _ => rfl, fun _ _ _ => rfl⟩

/-- C7 (witness): the union rule applied to a one-artist track (string
field) and a two-artist album (ordered-list field). -/
theorem C7_witness :
    (∃ arts, (if false then [exArtistItem].mapM (fun a => parse_artist a false)
              else [exArtistItem].mapM (fun a => getItem a "name")) = .ok arts ∧
      arts.length = [exArtistItem].length ∧
      dlookup [("name", Val.str "T"), ("id", Val.str "t1"),
        ("artist", Val.str "A")] "artist" = some (singleOrList arts)) ∧
    (∃ arts, (if false then
        [exArtistItem, exArtistItem2].mapM (fun a => parse_artist a false)
      else [exArtistItem, exArtistItem2].mapM (fun a => getItem a "name")) = .ok arts ∧
      arts.length = [exArtistItem, exArtistItem2].length ∧
      dlookup [("name", Val.str "Al"), ("id", Val.str "al1"),
        ("artist", Val.list [.str "A", .str "B"])] "artist" =
          some (singleOrList arts)) :=
  ⟨C7_artist_union.1 exTrackItem false
      [("name", .str "T"), ("id", .str "t1"), ("artist", .str "A")]
      [exArtistItem] rfl rfl,
    C7_artist_union.2.1 exAlbumTwoArtists false
      [("name", .str "Al"), ("id", .str "al1"),
        ("artist", .list [.str "A", .str "B"])]
      [exArtistItem, exArtistItem2] rfl rfl⟩

/-- The album nested inside a detailed track is normalized with
`detailed=false` (summary mode). -/
theorem parse_track_detailed_album (item : Val) (fs : List (String × Val))
    (h : parse_track item true = .ok (.dict fs)) :
    ∃ albumRaw alb, dGet item "album" = .ok albumRaw ∧
      parse_album albumRaw false = .ok alb ∧
      dlookup fs "album" = some alb := by
  unfold parse_track at h
  rcases htp : truthy item with _ | _
  · rw [htp] at h
    simp only [Bool.not_false, if_true, pure, Except.pure, Except.ok.injEq] at h
    exact Val.noConfusion h
  rw [htp] at h
  simp only [Bool.not_true, Bool.false_eq_true, if_false, if_true, pure,
    Except.pure, okBind, errBind] at h
  rcases hn : getItem item "name" with e | name <;> rw [hn] at h <;>
    simp only [okBind, errBind] at h
  · exact Except.noConfusion h
  rcases hi : getItem item "id" with e | id <;> rw [hi] at h <;>
    simp only [okBind, errBind] at h
  · exact Except.noConfusion h
  rcases hal : dGet item "album" with e | albumRaw <;> rw [hal] at h <;>
    simp only [okBind, errBind] at h
  · exact Except.noConfusion h
  rcases hpa : parse_album albumRaw false with e | album <;> rw [hpa] at h <;>
    simp only [okBind, errBind] at h
  · exact Except.noConfusion h
  rcases htn : dGet item "track_number" with e | tn <;> rw [htn] at h <;>
    simp only [okBind, errBind] at h
  · exact Except.noConfusion h
  rcases hdm : dGet item "duration_ms" with e | dm <;> rw [hdm] at h <;>
    simp only [okBind, errBind] at h
  · exact Except.noConfusion h
  rcases hp : dGetD item "is_playable" (.bool true) with e | p <;> rw [hp] at h <;>
    simp only [okBind, errBind] at h
  · exact Except.noConfusion h
  rcases ha : getItem item "artists" with e | ar <;> rw [ha] at h <;>
    simp only [okBind, errBind] at h
  · exact Except.noConfusion h
  rcases hl : asList ar with e | ll <;> rw [hl] at h <;>
    simp only [okBind, errBind] at h
  · exact Except.noConfusion h
  rcases hm : ll.mapM (fun a => getItem a "name") with e | names <;> rw [hm] at h <;>
    simp only [okBind, errBind] at h
  · exact Except.noConfusion h
  rcases hm2 : ll.mapM (fun a => parse_artist a false) with e | arts <;>
    rw [hm2] at h <;>
    simp only [okBind, errBind, pure, Except.pure, Except.ok.injEq] at h
  · exact Except.noConfusion h
  refine ⟨albumRaw, album, rfl, hpa, ?_⟩
  rw [← (Val.dict.injEq _ _).mp h]
  by_cases h1 : hasKey item "is_playing" = true <;>
    by_cases h2 : truthy p = true <;>
    simp [h1, h2, dictSet, dlookup]

/-- The tracks nested inside a detailed album are each normalized with
`detailed=false` (summary mode), element-wise with no filtering. -/
theorem parse_album_detailed_tracks (item : Val) (fs : List (String × Val))
    (h : parse_album item true = .ok (.dict fs)) :
    ∃ tracksObj itemsRaw items ts,
      dGetD item "tracks" (.dict []) = .ok tracksObj ∧
      dGetD tracksObj "items" (.list []) = .ok itemsRaw ∧
      asList itemsRaw = .ok items ∧
      items.mapM (fun t => parse_track t false) = .ok ts ∧
      dlookup fs "tracks" = some (.list ts) ∧ ts.length = items.length := by
  unfold parse_album at h
  rcases htp : truthy item with _ | _
  · rw [htp] at h
    simp only [Bool.not_false, if_true, pure, Except.pure, Except.ok.injEq] at h
    exact Val.noConfusion h
  rw [htp] at h
  simp only [Bool.not_true, Bool.false_eq_true, if_false, if_true, pure,
    Except.pure, okBind, errBind] at h
  rcases hn : getItem item "name" with e | name <;> rw [hn] at h <;>
    simp only [okBind, errBind] at h
  · exact Except.noConfusion h
  rcases hi : getItem item "id" with e | id <;> rw [hi] at h <;>
    simp only [okBind, errBind] at h
  · exact Except.noConfusion h
  rcases ha : getItem item "artists" with e | ar <;> rw [ha] at h <;>
    simp only [okBind, errBind] at h
  · exact Except.noConfusion h
  rcases hl : asList ar with e | ll <;> rw [hl] at h <;>
    simp only [okBind, errBind] at h
  · exact Except.noConfusion h
  rcases hm : ll.mapM (fun a => getItem a "name") with e | names <;> rw [hm] at h <;>
    simp only [okBind, errBind] at h
  · exact Except.noConfusion h
  rcases hto : dGetD item "tracks" (.dict []) with e | tracksObj <;>
    rw [hto] at h <;> simp only [okBind, errBind] at h
  · exact Except.noConfusion h
  rcases hir : dGetD tracksObj "items" (.list []) with e | itemsRaw <;>
    rw [hir] at h <;> simp only [okBind, errBind] at h
  · exact Except.noConfusion h
  rcases hil : asList itemsRaw with e | items <;> rw [hil] at h <;>
    simp only [okBind, errBind] at h
  · exact Except.noConfusion h
  rcases htm : items.mapM (fun t => parse_track0 t) with e | ts <;>
    rw [htm] at h <;> simp only [okBind, errBind] at h
  · exact Except.noConfusion h
  rcases hm2 : ll.mapM (fun a => parse_artist a false) with e | arts <;>
    rw [hm2] at h <;> simp only [okBind, errBind] at h
  · exact Except.noConfusion h
  rcases htt : dGet item "total_tracks" with e | tt <;> rw [htt] at h <;>
    simp only [okBind, errBind] at h
  · exact Except.noConfusion h
  rcases hrd : dGet item "release_date" with e | rd <;> rw [hrd] at h <;>
    simp only [okBind, errBind] at h
  · exact Except.noConfusion h
  rcases hgs : dGet item "genres" with e | gs <;> rw [hgs] at h <;>
    simp only [okBind, errBind, pure, Except.pure, Except.ok.injEq] at h
  · exact Except.noConfusion h
  refine ⟨tracksObj, itemsRaw, items, ts, rfl, hir, hil, htm,
    ?_, mapM_ok_length _ items ts htm⟩
  rw [← (Val.dict.injEq _ _).mp h]
  simp [dictSet, dlookup]

/-! ## C9 — exactly one level of detail expansion -/

/-- C9: whenever an entity is normalized with `detailed=true`, every nested
sub-entity it pulls in is normalized with `detailed=false`: the album
inside a track, the track items inside an album, and the tracks inside a
playlist.  The summary projection itself (`parse_track0`, to which
`parse_track · false` is definitionally equal) makes no nested
normalization call at all, so expansion stops one level down. -/
theorem C9_one_level_detail :
    (∀ (item : Val) (fs : List (String × Val)),
      parse_track item true = .ok (.dict fs) →
      ∃ albumRaw alb, dGet item "album" = .ok albumRaw ∧
        parse_album albumRaw false = .ok alb ∧
        dlookup fs "album" = some alb) ∧
    (∀ (item : Val) (fs : List (String × Val)),
      parse_album item true = .ok (.dict fs) →
      ∃ tracksObj itemsRaw items ts,
        dGetD item "tracks" (.dict []) = .ok tracksObj ∧
        dGetD tracksObj "items" (.list []) = .ok itemsRaw ∧
        asList itemsRaw = .ok items ∧
        items.mapM (fun t => parse_track t false) = .ok ts ∧
        dlookup fs "tracks" = some (.list ts) ∧ ts.length = items.length) ∧
    (∀ (p u tro : Val) (its : List Val) (fs : List (String × Val)),
      getItem p "tracks" = .ok tro →
      getItem tro "items" = .ok (.list its) →
      parse_playlist p u true = .ok (.dict fs) →
      ∃ ts, its.mapM (fun t => do
          let tr ← getItem t "track"
          parse_track tr false) = .ok ts ∧
        dlookup fs "tracks" = some (.list ts)) ∧
    (∀ t : Val, parse_track t false = parse_track0 t) := by
  refine ⟨parse_track_detailed_album, parse_album_detailed_tracks,
    ?_, parse_track_false⟩
  intro p u tro its fs h1 h2 h3
  obtain ⟨ts, ha, hb, _⟩ := parse_playlist_tracks_length p u tro its fs h1 h2 h3
  exact ⟨ts, ha, hb⟩

/-- C9 (witness): the three detailed paths applied to concrete fixtures —
the nested album/tracks fields hold exactly the summary normalizations. -/
theorem C9_witness :
    (∃ albumRaw alb, dGet exTrackItem "album" = .ok albumRaw ∧
      parse_album albumRaw false = .ok alb ∧
      dlookup [("name", Val.str "T"), ("id", Val.str "t1"),
        ("album", Val.null), ("track_number", Val.null),
        ("duration_ms", Val.null),
        ("artist", Val.dict [("name", Val.str "A"), ("id", Val.str "a1")])]
        "album" = some alb) ∧
    (∃ tracksObj itemsRaw items ts,
      dGetD exAlbumTwoArtists "tracks" (.dict []) = .ok tracksObj ∧
      dGetD tracksObj "items" (.list []) = .ok itemsRaw ∧
      asList itemsRaw = .ok items ∧
      items.mapM (fun t => parse_track t false) = .ok ts ∧
      dlookup [("name", Val.str "Al"), ("id", Val.str "al1"),
        ("tracks", Val.list []), ("total_tracks", Val.null),
        ("release_date", Val.null), ("genres", Val.null),
        ("artist", Val.list [Val.dict [("name", Val.str "A"), ("id", Val.str "a1")],
          Val.dict [("name", Val.str "B"), ("id", Val.str "a2")]])]
        "tracks" = some (.list ts) ∧ ts.length = items.length) ∧
    (∃ ts, ([Val.dict [("track", Val.null)]] : List Val).mapM (fun t => do
        let tr ← getItem t "track"
        parse_track tr false) = .ok ts ∧
      dlookup [("name", Val.str "P"), ("id", Val.str "p1"),
        ("owner", Val.str "alice"), ("total_tracks", Val.int 1),
        ("description", Val.null), ("tracks", Val.list [Val.null])]
        "tracks" = some (.list ts)) :=
  ⟨C9_one_level_detail.1 exTrackItem
      [("name", .str "T"), ("id", .str "t1"), ("album", .null),
        ("track_number", .null), ("duration_ms", .null),
        ("artist", .dict [("name", .str "A"), ("id", .str "a1")])] rfl,
    C9_one_level_detail.2.1 exAlbumTwoArtists
      [("name", .str "Al"), ("id", .str "al1"), ("tracks", .list []),
        ("total_tracks", .null), ("release_date", .null), ("genres", .null),
        ("artist", .list [.dict [("name", .str "A"), ("id", .str "a1")],
          .dict [("name", .str "B"), ("id", .str "a2")]])] rfl,
    C9_one_level_detail.2.2.1 exPlaylistNullTrack .null
      (.dict [("total", .int 1), ("items", .list [.dict [("track", .null)]])])
      [.dict [("track", .null)]]
      [("name", .str "P"), ("id", .str "p1"), ("owner", .str "alice"),
        ("total_tracks", .int 1), ("description", .null),
        ("tracks", .list [.null])] rfl rfl rfl⟩

/-- A successful `.get` with default implies the receiver is a dict. -/
theorem dGetD_ok_dict (v : Val) (k : String) (d : Val) (x : Val)
    (h : dGetD v k d = .ok x) : ∃ fs, v = .dict fs := by
  cases v <;> simp only [dGetD] at h <;> try exact Except.noConfusion h
  exact ⟨_, rfl⟩

/-- C10 helper: `get_queue` maps the provider queue element-wise through
the summary track normalization with no filtering, so the output list has
exactly the provider list's length and a falsy provider entry yields a
null placeholder at the same position. -/
theorem get_queue_elementwise (sp : Stub) (items : List Val) (s s' : DState)
    (v : Val)
    (hq : dGetD (sp.responses "queue") "queue" (.list []) = .ok (.list items))
    (h : get_queue sp s = (.ok v, s')) :
    ∃ cp ts, v = .dict [("currently_playing", cp), ("queue", .list ts)] ∧
      items.mapM (fun t => parse_track t false) = .ok ts ∧
      ts.length = items.length ∧
      ∀ (i : Nat) (hi : i < items.length) (hi' : i < ts.length),
        truthy (items.get ⟨i, hi⟩) = false → ts.get ⟨i, hi'⟩ = .null := by
  obtain ⟨qfs, hqd⟩ := dGetD_ok_dict _ _ _ _ hq
  unfold get_queue at h
  rw [mbind_ok _ _ (show call sp "queue" s =
    (.ok (sp.responses "queue"), { s with calls := s.calls ++ ["queue"] })
    from rfl)] at h
  rw [hqd] at h
  rw [mbind_ok _ _ (show liftE (dGet (Val.dict qfs) "currently_playing") _ =
    (.ok ((dlookup qfs "currently_playing").getD .null), _) from rfl)] at h
  rw [hqd] at hq
  have hrest : ∀ (cp : Val) (s1 : DState),
      (do
        let queueRaw ← liftE (dGetD (Val.dict qfs) "queue" (.list []))
        let items ← liftE (asList queueRaw)
        let parsed ← liftE (items.mapM (fun t => parse_track t false))
        pure (.dict [("currently_playing", cp), ("queue", .list parsed)]) : M Val) s1
        = (.ok v, s') →
      ∃ cp' ts, v = .dict [("currently_playing", cp'), ("queue", .list ts)] ∧
        items.mapM (fun t => parse_track t false) = .ok ts := by
    intro cp s1 hh
    rw [mbind_ok _ _ (show liftE (dGetD (Val.dict qfs) "queue" (.list [])) s1 =
      (.ok (.list items), s1) from by rw [liftE_apply, hq])] at hh
    rw [mbind_ok _ _ (show liftE (asList (Val.list items)) s1 = (.ok items, s1)
      from by rw [liftE_apply, asList_list])] at hh
    rcases hm : items.mapM (fun t => parse_track t false) with e | ts
    · rw [mbind_err _ _ (show liftE (items.mapM (fun t => parse_track t false)) s1 =
        (.error (.exc e), s1) from by rw [liftE_apply, hm])] at hh
      simp only [Prod.mk.injEq] at hh
      exact Except.noConfusion hh.1
    · rw [mbind_ok _ _ (show liftE (items.mapM (fun t => parse_track t false)) s1 =
        (.ok ts, s1) from by rw [liftE_apply, hm])] at hh
      simp only [pure, Prod.mk.injEq] at hh
      obtain ⟨h1, _⟩ := hh
      have hv := (Except.ok.injEq _ _).mp h1
      exact ⟨cp, ts, hv.symm, rfl⟩
  by_cases ht : truthy ((dlookup qfs "currently_playing").getD .null) = true
  · rw [if_pos ht] at h
    rcases hpt : parse_track ((dlookup qfs "currently_playing").getD .null) false
      with e | cp
    · rw [mbind_err _ _ (show liftE (parse_track
        ((dlookup qfs "currently_playing").getD .null) false) _ =
        (.error (.exc e), _) from by rw [liftE_apply, hpt])] at h
      simp only [Prod.mk.injEq] at h
      exact Except.noConfusion h.1
    · rw [mbind_ok _ _ (show liftE (parse_track
        ((dlookup qfs "currently_playing").getD .null) false) _ =
        (.ok cp, _) from by rw [liftE_apply, hpt])] at h
      obtain ⟨cp', ts, hv, hm⟩ := hrest cp _ h
      refine ⟨cp', ts, hv, hm, mapM_ok_length _ items ts hm, ?_⟩
      intro i hi hi' hfalsy
      have := mapM_ok_get _ items ts hm i hi hi'
      rw [(parse_track_null_iff (items.get ⟨i, hi⟩) false).mpr hfalsy] at this
      exact ((Except.ok.injEq _ _).mp this).symm
  · rw [if_neg ht] at h
    rw [mbind_ok _ _ (show (pure Val.null : M Val) _ = (.ok Val.null, _) from rfl)] at h
    obtain ⟨cp', ts, hv, hm⟩ := hrest .null _ h
    refine ⟨cp', ts, hv, hm, mapM_ok_length _ items ts hm, ?_⟩
    intro i hi hi' hfalsy
    have := mapM_ok_get _ items ts hm i hi hi'
    rw [(parse_track_null_iff (items.get ⟨i, hi⟩) false).mpr hfalsy] at this
    exact ((Except.ok.injEq _ _).mp this).symm

/-! ## C10 — queue normalization does not filter -/

/-- C10 (witness): on a provider queue `[null, track]` the normalized
queue is `[null, normalized-track]` — the null entry survives at its
position and the length is preserved, unlike the playlist item path. -/
theorem C10_witness :
    ∃ cp ts,
      (Val.dict [("currently_playing", .null),
        ("queue", .list [.null, exTrackNorm])]) =
        .dict [("currently_playing", cp), ("queue", .list ts)] ∧
      ([Val.null, exTrackItem] : List Val).mapM (fun t => parse_track t false) =
        .ok ts ∧
      ts.length = ([Val.null, exTrackItem] : List Val).length ∧
      ∀ (i : Nat) (hi : i < ([Val.null, exTrackItem] : List Val).length)
        (hi' : i < ts.length),
        truthy (([Val.null, exTrackItem] : List Val).get ⟨i, hi⟩) = false →
        ts.get ⟨i, hi'⟩ = .null :=
  get_queue_elementwise exQueueStub [.null, exTrackItem] DState.init
    ⟨["queue"], [], []⟩
    (.dict [("currently_playing", .null), ("queue", .list [.null, exTrackNorm])])
    rfl rfl

/-- `indexOf` finds the first occurrence after a prefix free of the key. -/
theorem indexOf_append_cons (flag : String) :
    ∀ (pre rest : List String), flag ∉ pre →
      (pre ++ flag :: rest).indexOf flag = pre.length := by
  intro pre
  induction pre with
  | nil => intro rest _; simp
  | cons x xs ih =>
    intro rest hnm
    have hx : x ≠ flag := fun hx => hnm (by simp [hx])
    have hxs : flag ∉ xs := fun hm => hnm (List.mem_cons_of_mem _ hm)
    simp only [List.cons_append, List.length_cons]
    rw [List.indexOf_cons_ne _ (by simpa using hx), ih rest hxs]

/-- Erasing the index right after a prefix removes the following element. -/
theorem eraseIdx_append_cons {α : Type} (x : α) :
    ∀ (pre l : List α), (pre ++ x :: l).eraseIdx pre.length = pre ++ l := by
  intro pre
  induction pre with
  | nil => intro l; rfl
  | cons y ys ih =>
    intro l
    simp only [List.cons_append, List.length_cons, List.eraseIdx]
    rw [List.append_eq, ih l]

/-- Reading the element right after a prefix. -/
theorem getD_append_cons_succ {α : Type} (x v : α) (d : α) :
    ∀ (pre l : List α), (pre ++ x :: v :: l).getD (pre.length + 1) d = v := by
  intro pre
  induction pre with
  | nil => intro l; rfl
  | cons y ys ih =>
    intro l
    simp only [List.cons_append, List.length_cons, List.getD]
    simpa using ih l

/-! ## C8 — flag extraction -/

/-- C8: `_get_flag` finds the first occurrence of the flag (the prefix
before it is flag-free); with a following value token it removes both and
returns the value, order-preserved; with the flag last it removes only the
flag and returns the default; with the flag absent it returns the default
and leaves the list untouched.  The two spec examples are the final
conjuncts. -/
theorem C8_get_flag_contract :
    (∀ (args : List String) (flag default : String), flag ∉ args →
      _get_flag args flag default = (default, args)) ∧
    (∀ (pre : List String) (flag v : String) (rest : List String)
      (default : String), flag ∉ pre →
      _get_flag (pre ++ flag :: v :: rest) flag default = (v, pre ++ rest)) ∧
    (∀ (pre : List String) (flag default : String), flag ∉ pre →
      _get_flag (pre ++ [flag]) flag default = (default, pre)) ∧
    _get_flag ["--limit", "5", "foo"] "--limit" "10" = ("5", ["foo"]) ∧
    _get_flag ["foo"] "--limit" "10" = ("10", ["foo"]) := by
  refine ⟨?_, ?_, ?_, rfl, rfl⟩
  · intro args flag default hnm
    unfold _get_flag
    rw [if_neg hnm]
  · intro pre flag v rest default hnm
    unfold _get_flag
    rw [if_pos (by simp : flag ∈ pre ++ flag :: v :: rest)]
    rw [indexOf_append_cons flag pre (v :: rest) hnm]
    rw [if_pos (by simp only [List.length_append, List.length_cons]; omega)]
    rw [getD_append_cons_succ flag v "" pre rest]
    rw [eraseIdx_append_cons flag pre (v :: rest)]
    rw [eraseIdx_append_cons v pre rest]
  · intro pre flag default hnm
    unfold _get_flag
    rw [if_pos (by simp : flag ∈ pre ++ [flag])]
    rw [indexOf_append_cons flag pre [] hnm]
    rw [if_neg (by simp only [List.length_append, List.length_cons,
      List.length_nil]; omega)]
    rw [eraseIdx_append_cons flag pre []]
    simp

/-- C8 (witness): the three universal parts applied to concrete lists
(the first two reproduce the spec's own examples). -/
theorem C8_witness :
    _get_flag (([] : List String) ++ "--limit" :: "5" :: ["foo"]) "--limit" "10" =
      ("5", [] ++ ["foo"]) ∧
    _get_flag ["foo"] "--limit" "10" = ("10", ["foo"]) ∧
    _get_flag (["a"] ++ ["--desc"]) "--desc" "" = ("", ["a"]) :=
  ⟨C8_get_flag_contract.2.1 [] "--limit" "5" ["foo"] "10" (by simp),
    C8_get_flag_contract.1 ["foo"] "--limit" "10" (by simp),
    C8_get_flag_contract.2.2.1 ["a"] "--desc" "" (by simp)⟩

/-- The skip loop makes exactly one `next_track` call per iteration and
always succeeds. -/
theorem skipLoop_run (sp : Stub) :
    ∀ (k : Nat) (s : DState),
      skipLoop sp k s =
        (.ok (), { s with calls := s.calls ++ List.replicate k "next_track" }) := by
  intro k
  induction k with
  | zero =>
    intro s
    show ((Except.ok (), s) : Except PyErr Unit × DState) = _
    simp
  | succ k ih =>
    intro s
    show ((call sp "next_track") >>= fun _ => skipLoop sp k) s = _
    rw [mbind_ok _ _ (show call sp "next_track" s =
      (.ok (sp.responses "next_track"),
        { s with calls := s.calls ++ ["next_track"] }) from rfl)]
    rw [ih]
    simp [List.replicate_succ]

/-- `client.search` performs exactly the `current_user` call followed by
the `search` call (when the username lookup succeeds). -/
theorem search_calls (sp : Stub) (q t : String) (l : Int) (s : DState) (u : Val)
    (hu : getItem (sp.responses "current_user") "display_name" = .ok u) :
    ((search sp q t l) s).2.calls = s.calls ++ ["current_user", "search"] := by
  unfold search
  rw [mbind_ok _ _ (show client_get_username sp s =
    (.ok u, { s with calls := s.calls ++ ["current_user"] }) from by
      unfold client_get_username
      rw [mbind_ok _ _ (show call sp "current_user" s =
        (.ok (sp.responses "current_user"),
          { s with calls := s.calls ++ ["current_user"] }) from rfl)]
      rw [liftE_apply, hu])]
  rw [mbind_ok _ _ (show call sp "search"
      { s with calls := s.calls ++ ["current_user"] } =
    (.ok (sp.responses "search"),
      { s with calls := (s.calls ++ ["current_user"]) ++ ["search"] }) from rfl)]
  rw [liftE_apply]
  simp

/-! ## C5 — remote calls per dispatch -/

/-- C5 (counterexample): `skip 2` invokes the remote `next_track` twice in
a single dispatch, and `search` invokes two different remote operations
(`current_user`, then `search`); `pause` also makes a device-lookup call
before `pause_playback`.  So a dispatch is not limited to one remote
call. -/
theorem C5_counterexample :
    (runMain exBenignStub ["skip", "2"]).1.calls = ["next_track", "next_track"] ∧
    ¬((runMain exBenignStub ["skip", "2"]).1.calls.length ≤ 1) ∧
    (runMain exBenignStub ["search", "q"]).1.calls = ["current_user", "search"] ∧
    (runMain exBenignStub ["pause"]).1.calls = ["devices", "pause_playback"] := by
  refine ⟨rfl, ?_, rfl, rfl⟩
  rw [show (runMain exBenignStub ["skip", "2"]).1.calls =
    ["next_track", "next_track"] from rfl]
  decide

/-- C5 (amended): the remote-call sequence of a dispatch is the fixed one
its operation dictates, not always a single call: `skip n` issues exactly
`n` consecutive `next_track` calls (none for `n ≤ 0`), and `search` issues
exactly the `current_user` call followed by the `search` call.  No other
calls, retries or batching occur in these operations. -/
theorem C5_fixed_call_sequences :
    (∀ (sp : Stub) (n : Int) (s : DState),
      skip sp n s =
        (.ok (), { s with calls := s.calls ++ List.replicate n.toNat "next_track" })) ∧
    (∀ (sp : Stub) (q t : String) (l : Int) (s : DState) (u : Val),
      getItem (sp.responses "current_user") "display_name" = .ok u →
      ((search sp q t l) s).2.calls = s.calls ++ ["current_user", "search"]) :=
  ⟨fun sp n s => skipLoop_run sp n.toNat s, search_calls⟩

/-- C5 (witness): the amended call-sequence facts at concrete inputs. -/
theorem C5_witness :
    skip exBenignStub 2 DState.init =
      (.ok (), { calls := List.replicate 2 "next_track", out := [], err := [] }) ∧
    ((search exBenignStub "q" "track" 10) DState.init).2.calls =
      ["current_user", "search"] := by
  constructor
  · have h := C5_fixed_call_sequences.1 exBenignStub 2 DState.init
    simpa [DState.init] using h
  · have h := C5_fixed_call_sequences.2 exBenignStub "q" "track" 10 DState.init
      (.str "alice") rfl
    simpa [DState.init] using h

/-- The playlist `add` route of the dispatcher selects the same
json-independent branch for any fuel successor. -/
theorem dispatchAux_playlist_add (sp : Stub) (pid ids : String)
    (rest : List String) (fuel : Nat) (uj : Bool) :
    dispatchAux sp (fuel + 1) "playlist" (pid :: "add" :: ids :: rest) uj =
      (do
        playlist_add sp ((pid :: "add" :: ids :: rest).headD "")
          (_parse_ids ((pid :: "add" :: ids :: rest).getD 2 ""))
        put ("Added " ++
          toString (_parse_ids ((pid :: "add" :: ids :: rest).getD 2 "")).length ++
          " track(s).")) := by
  simp only [dispatchAux]
  rw [if_neg (show ¬(("playlist" : String) = "now") by decide)]
  rw [if_neg (show ¬(("playlist" : String) = "play") by decide)]
  rw [if_neg (show ¬(("playlist" : String) = "pause") by decide)]
  rw [if_neg (show ¬(("playlist" : String) = "skip") by decide)]
  rw [if_neg (show ¬(("playlist" : String) = "prev") by decide)]
  rw [if_neg (show ¬(("playlist" : String) = "volume") by decide)]
  rw [if_neg (show ¬(("playlist" : String) = "devices") by decide)]
  rw [if_neg (show ¬(("playlist" : String) = "queue") by decide)]
  rw [if_neg (show ¬(("playlist" : String) = "search") by decide)]
  rw [if_neg (show ¬(("playlist" : String) = "info") by decide)]
  rw [if_neg (show ¬(("playlist" : String) = "playlists") by decide)]
  rw [if_pos (trivial : True)]
  rw [if_neg (show ¬((pid :: "add" :: ids :: rest).isEmpty = true) by simp)]
  rw [if_neg (show ¬((pid :: "add" :: ids :: rest).length ≥ 2 ∧
    (pid :: "add" :: ids :: rest).getD 1 "" = "create") by simp [List.getD])]
  rw [if_pos (show (pid :: "add" :: ids :: rest).length ≥ 3 ∧
    (pid :: "add" :: ids :: rest).getD 1 "" = "add" from
      ⟨by simp [List.length_cons], rfl⟩)]

/-- The playlist `remove` route, likewise json-independent. -/
theorem dispatchAux_playlist_remove (sp : Stub) (pid ids : String)
    (rest : List String) (fuel : Nat) (uj : Bool) :
    dispatchAux sp (fuel + 1) "playlist" (pid :: "remove" :: ids :: rest) uj =
      (do
        playlist_remove sp ((pid :: "remove" :: ids :: rest).headD "")
          (_parse_ids ((pid :: "remove" :: ids :: rest).getD 2 ""))
        put ("Removed " ++
          toString (_parse_ids ((pid :: "remove" :: ids :: rest).getD 2 "")).length ++
          " track(s).")) := by
  simp only [dispatchAux]
  rw [if_neg (show ¬(("playlist" : String) = "now") by decide)]
  rw [if_neg (show ¬(("playlist" : String) = "play") by decide)]
  rw [if_neg (show ¬(("playlist" : String) = "pause") by decide)]
  rw [if_neg (show ¬(("playlist" : String) = "skip") by decide)]
  rw [if_neg (show ¬(("playlist" : String) = "prev") by decide)]
  rw [if_neg (show ¬(("playlist" : String) = "volume") by decide)]
  rw [if_neg (show ¬(("playlist" : String) = "devices") by decide)]
  rw [if_neg (show ¬(("playlist" : String) = "queue") by decide)]
  rw [if_neg (show ¬(("playlist" : String) = "search") by decide)]
  rw [if_neg (show ¬(("playlist" : String) = "info") by decide)]
  rw [if_neg (show ¬(("playlist" : String) = "playlists") by decide)]
  rw [if_pos (trivial : True)]
  rw [if_neg (show ¬((pid :: "remove" :: ids :: rest).isEmpty = true) by simp)]
  rw [if_neg (show ¬((pid :: "remove" :: ids :: rest).length ≥ 2 ∧
    (pid :: "remove" :: ids :: rest).getD 1 "" = "create") by simp [List.getD])]
  rw [if_neg (show ¬((pid :: "remove" :: ids :: rest).length ≥ 3 ∧
    (pid :: "remove" :: ids :: rest).getD 1 "" = "add") by simp [List.getD])]
  rw [if_pos (show (pid :: "remove" :: ids :: rest).length ≥ 3 ∧
    (pid :: "remove" :: ids :: rest).getD 1 "" = "remove" from
      ⟨by simp [List.length_cons], rfl⟩)]

/-! ## C4 — mutating operations and the json flag -/

/-- C4 (counterexample): `playlist create` is a mutating operation, yet
`--json` changes its output: with the flag it prints the created playlist
as a JSON document, without it the `Created: …` text line.  So the claim
fails for `playlist create`. -/
theorem C4_counterexample :
    (runMain exCreateStub ["playlist", "create", "MyList", "--json"]).1.out =
      ["\x7b\n  \"name\": \"MyList\",\n  \"id\": \"p1\",\n  \"owner\": \"alice\",\n  \"total_tracks\": 0,\n  \"user_is_owner\": true,\n  \"description\": \"\",\n  \"tracks\": []\n\x7d"] ∧
    (runMain exCreateStub ["playlist", "create", "MyList"]).1.out =
      ["Created: MyList -- alice (0 tracks) (ID: p1)"] ∧
    (runMain exCreateStub ["playlist", "create", "MyList", "--json"]).1.out ≠
      (runMain exCreateStub ["playlist", "create", "MyList"]).1.out := by
  refine ⟨rfl, rfl, ?_⟩
  rw [show (runMain exCreateStub ["playlist", "create", "MyList", "--json"]).1.out =
    ["\x7b\n  \"name\": \"MyList\",\n  \"id\": \"p1\",\n  \"owner\": \"alice\",\n  \"total_tracks\": 0,\n  \"user_is_owner\": true,\n  \"description\": \"\",\n  \"tracks\": []\n\x7d"] from rfl]
  rw [show (runMain exCreateStub ["playlist", "create", "MyList"]).1.out =
    ["Created: MyList -- alice (0 tracks) (ID: p1)"] from rfl]
  decide

set_option maxHeartbeats 4000000 in
/-- C4 (amended): every mutating operation except `playlist create`
(play, pause, skip, prev, volume, queue add, playlist add/remove,
save, unsave) ignores `--json` entirely — its whole observable run is
identical with and without the flag — and on success prints only the fixed
confirmation line; `playlist create` honors `--json`, printing the created
playlist as JSON instead of the confirmation. -/
theorem C4_mutating_ignore_json_except_create :
    (∀ (sp : Stub) (args : List String),
      _dispatch sp "play" args true = _dispatch sp "play" args false) ∧
    (∀ (sp : Stub) (args : List String),
      _dispatch sp "pause" args true = _dispatch sp "pause" args false) ∧
    (∀ (sp : Stub) (args : List String),
      _dispatch sp "skip" args true = _dispatch sp "skip" args false) ∧
    (∀ (sp : Stub) (args : List String),
      _dispatch sp "prev" args true = _dispatch sp "prev" args false) ∧
    (∀ (sp : Stub) (args : List String),
      _dispatch sp "volume" args true = _dispatch sp "volume" args false) ∧
    (∀ (sp : Stub) (args : List String),
      _dispatch sp "save" args true = _dispatch sp "save" args false) ∧
    (∀ (sp : Stub) (args : List String),
      _dispatch sp "unsave" args true = _dispatch sp "unsave" args false) ∧
    (∀ (sp : Stub) (rest : List String),
      _dispatch sp "queue" ("add" :: rest) true =
        _dispatch sp "queue" ("add" :: rest) false) ∧
    (∀ (sp : Stub) (pid ids : String) (rest : List String),
      _dispatch sp "playlist" (pid :: "add" :: ids :: rest) true =
        _dispatch sp "playlist" (pid :: "add" :: ids :: rest) false) ∧
    (∀ (sp : Stub) (pid ids : String) (rest : List String),
      _dispatch sp "playlist" (pid :: "remove" :: ids :: rest) true =
        _dispatch sp "playlist" (pid :: "remove" :: ids :: rest) false) ∧
    (runMain exBenignStub ["pause"]).1.out = ["Paused."] ∧
    (runMain exBenignStub ["skip", "2"]).1.out = ["Skipped 2 track(s)."] ∧
    (runMain exBenignStub ["volume", "30"]).1.out = ["Volume: 30%"] ∧
    (runMain exBenignStub ["queue", "add", "u1"]).1.out = ["Added to queue."] ∧
    (runMain exBenignStub ["save", "track", "a,b"]).1.out = ["Saved 2 track(s)."] ∧
    (runMain exBenignStub ["playlist", "p", "add", "a,b, c"]).1.out =
      ["Added 3 track(s)."] ∧
    (runMain exCreateStub ["playlist", "create", "MyList", "--json"]).1.out =
      ["\x7b\n  \"name\": \"MyList\",\n  \"id\": \"p1\",\n  \"owner\": \"alice\",\n  \"total_tracks\": 0,\n  \"user_is_owner\": true,\n  \"description\": \"\",\n  \"tracks\": []\n\x7d"] ∧
    (runMain exCreateStub ["playlist", "create", "MyList"]).1.out =
      ["Created: MyList -- alice (0 tracks) (ID: p1)"] := by
  refine ⟨fun _ _ => rfl, fun _ _ => rfl, fun _ _ => rfl, fun _ _ => rfl,
    fun _ _ => rfl, fun _ _ => rfl, fun _ _ => rfl, fun _ _ => rfl,
    ?_, ?_, rfl, rfl, rfl, rfl, rfl, rfl, rfl, rfl⟩
  · intro sp pid ids rest
    unfold _dispatch
    simp only [List.length_cons]
    rw [dispatchAux_playlist_add, dispatchAux_playlist_add]
  · intro sp pid ids rest
    unfold _dispatch
    simp only [List.length_cons]
    rw [dispatchAux_playlist_remove, dispatchAux_playlist_remove]

/-- `client.info` on a URI that does not split into exactly three `:`
parts, or whose kind part is unrecognized, raises a `ValueError` without
touching the remote collaborator or the interpreter state. -/
theorem info_malformed (sp : Stub) (uri : String) (s : DState)
    (h : ∀ a b c, pySplit uri ':' = [a, b, c] →
      b ≠ "track" ∧ b ≠ "album" ∧ b ≠ "artist" ∧ b ≠ "playlist") :
    ∃ m, info sp uri s = (.error (.exc m), s) := by
  unfold info
  by_cases hl : (pySplit uri ':').length = 3
  · rcases hs : pySplit uri ':' with _ | ⟨a, _ | ⟨b, _ | ⟨c, _ | ⟨d, rest⟩⟩⟩⟩ <;>
      rw [hs] at hl <;> try simp at hl
    obtain ⟨h1, h2, h3, h4⟩ := h a b c hs
    rw [if_neg (show ¬(([a, b, c] : List String).length ≠ 3) from
      fun hc => hc rfl)]
    simp only [List.getD_cons_succ, List.getD_cons_zero]
    rw [if_neg h1, if_neg h2, if_neg h3, if_neg h4]
    exact ⟨_, rfl⟩
  · rw [if_pos hl]
    exact ⟨_, rfl⟩

/-- The `info` dispatch route surfaces a client `ValueError` unchanged,
with no remote call recorded. -/
theorem dispatch_info_errored (sp : Stub) (uri : String) (m : String)
    (hm : info sp uri DState.init = (.error (.exc m), DState.init)) :
    _dispatch sp "info" [uri] false DState.init =
      (.error (.exc m), DState.init) := by
  unfold _dispatch
  simp only [dispatchAux, List.length_cons]
  rw [if_neg (show ¬(("info" : String) = "now") by decide)]
  rw [if_neg (show ¬(("info" : String) = "play") by decide)]
  rw [if_neg (show ¬(("info" : String) = "pause") by decide)]
  rw [if_neg (show ¬(("info" : String) = "skip") by decide)]
  rw [if_neg (show ¬(("info" : String) = "prev") by decide)]
  rw [if_neg (show ¬(("info" : String) = "volume") by decide)]
  rw [if_neg (show ¬(("info" : String) = "devices") by decide)]
  rw [if_neg (show ¬(("info" : String) = "queue") by decide)]
  rw [if_neg (show ¬(("info" : String) = "search") by decide)]
  rw [if_pos (trivial : True)]
  rw [if_neg (show ¬(([uri] : List String).isEmpty = true) by simp)]
  exact mbind_err _ _ hm

/-- `main` on `sp info <malformed-uri>`: the `ValueError` is printed to
stderr as an `Error:` line and the process exits 1, with no remote call
made. -/
theorem runMain_info_errored (sp : Stub) (uri : String) (m : String)
    (hj : uri ≠ "--json")
    (hm : info sp uri DState.init = (.error (.exc m), DState.init)) :
    runMain sp ["info", uri] = (⟨[], [], ["Error: " ++ m]⟩, 1) := by
  have hnm : ¬("--json" ∈ (["info", uri] : List String)) := by
    intro hmem
    rcases List.mem_cons.mp hmem with h1 | h2
    · exact absurd h1 (by decide)
    · exact hj (List.mem_singleton.mp h2).symm
  unfold runMain
  rw [if_neg (show ¬((["info", uri] : List String).isEmpty = true ∨
    (["info", uri] : List String).headD "" = "help" ∨
    (["info", uri] : List String).headD "" = "--help" ∨
    (["info", uri] : List String).headD "" = "-h") by simp)]
  rw [if_neg (show ¬((["info", uri] : List String).headD "" = "agent") by simp)]
  have hfalse : ("--json" ∈ (["info", uri] : List String)) = False := eq_false hnm
  simp only [hfalse, if_false, decide_False]
  rw [dispatch_info_errored sp uri m hm]
  rfl

/-! ## C6 — malformed info identifiers -/

/-- C6: for every `info` invocation whose identifier does not split on `:`
into exactly three parts, or whose kind part is not one of
track/album/artist/playlist, an error line reaches stderr and the process
exits 1 with no remote lookup recorded. -/
theorem C6_info_usage_error (sp : Stub) (uri : String)
    (h : ∀ a b c, pySplit uri ':' = [a, b, c] →
      b ≠ "track" ∧ b ≠ "album" ∧ b ≠ "artist" ∧ b ≠ "playlist") :
    (runMain sp ["info", uri]).1.calls = [] ∧
    (runMain sp ["info", uri]).1.err ≠ [] ∧
    (runMain sp ["info", uri]).2 = 1 := by
  by_cases hj : uri = "--json"
  · subst hj
    refine ⟨rfl, ?_, rfl⟩
    rw [show (runMain sp ["info", "--json"]).1.err =
      ["Usage: sp info <spotify:type:id>"] from rfl]
    decide
  · obtain ⟨m, hm⟩ := info_malformed sp uri DState.init h
    rw [runMain_info_errored sp uri m hj hm]
    exact ⟨rfl, by simp, rfl⟩

/-- C6 (witness): a two-part identifier and a three-part identifier with
an unknown kind both fail before any remote call. -/
theorem C6_witness :
    ((runMain exBenignStub ["info", "x:y"]).1.calls = [] ∧
      (runMain exBenignStub ["info", "x:y"]).1.err ≠ [] ∧
      (runMain exBenignStub ["info", "x:y"]).2 = 1) ∧
    ((runMain exBenignStub ["info", "spotify:show:z"]).1.calls = [] ∧
      (runMain exBenignStub ["info", "spotify:show:z"]).1.err ≠ [] ∧
      (runMain exBenignStub ["info", "spotify:show:z"]).2 = 1) := by
  constructor
  · refine C6_info_usage_error exBenignStub "x:y" ?_
    intro a b c hh
    rw [show pySplit "x:y" ':' = ["x", "y"] from rfl] at hh
    exact absurd hh (by simp)
  · refine C6_info_usage_error exBenignStub "spotify:show:z" ?_
    intro a b c hh
    rw [show pySplit "spotify:show:z" ':' = ["spotify", "show", "z"] from rfl] at hh
    injection hh with h1 h2
    injection h2 with h3 h4
    subst h3
    exact ⟨by decide, by decide, by decide, by decide⟩
